import Mathlib

/-!
# eduOS-rs / ehyve: machine-control core

A shallow embedding of `ehyve/src/macos/mem.c` (boot page tables and boot GDT),
`ehyve/src/linux/kvm.h` (layout constants, descriptor macros, the `kvm_ioctl`
wrapper) and `ehyve/src/linux/kvm.c` (CPUID filter, guest memory registration,
vCPU bring-up, run loop), followed by theorems about these definitions.

Conventions of the embedding.

* C unsigned integers are natural numbers; where a C operation can wrap, the
  embedding reduces modulo `2 ^ 64` explicitly.
* Guest memory is a map from byte offsets (relative to the `mem` pointer) to
  byte values.  A `uint64_t` access is little-endian, as on x86-64, the only
  architecture the code targets.  A `NULL` pointer is `none`.  The buffer is
  taken to reach past the structures written (`0x13000` bytes), as the code
  assumes without a check.
* Types of the system header `<linux/kvm.h>` are given with the fields the code
  uses.
* `err(1, ...)` ends the process; functions that can reach it return
  `Except Fatal _`, the run loop a `RunOutcome`.
* The outcome of a system call is an input of the embedding, and so is what C
  leaves open (the contents of an uninitialised local).
-/

namespace Ehyve

/-! ## Constants of `mem.c` and `kvm.h` -/

/-- The macro `_BITUL(x)`, that is `1UL << x`, on 64-bit `unsigned long`. -/
def _BITUL (x : Nat) : Nat := (1 <<< x) % 2 ^ 64

def X86_CR0_PE_BIT : Nat := 0
def X86_CR0_PE : Nat := _BITUL X86_CR0_PE_BIT
def X86_CR0_PG_BIT : Nat := 31
def X86_CR0_PG : Nat := _BITUL X86_CR0_PG_BIT
def X86_CR4_PAE_BIT : Nat := 5
def X86_CR4_PAE : Nat := _BITUL X86_CR4_PAE_BIT

def X86_PDPT_P_BIT : Nat := 0
def X86_PDPT_P : Nat := _BITUL X86_PDPT_P_BIT
def X86_PDPT_RW_BIT : Nat := 1
def X86_PDPT_RW : Nat := _BITUL X86_PDPT_RW_BIT
def X86_PDPT_PS_BIT : Nat := 7
def X86_PDPT_PS : Nat := _BITUL X86_PDPT_PS_BIT

def CPUID_FUNC_PERFMON : Nat := 0x0A
def APIC_DEFAULT_BASE : Nat := 0xfee00000
def GUEST_OFFSET : Nat := 0x0
def GUEST_PAGE_SIZE : Nat := 0x200000
def BOOT_GDT : Nat := 0x1000
def BOOT_INFO : Nat := 0x2000
def BOOT_PML4 : Nat := 0x10000
def BOOT_PDPTE : Nat := 0x11000
def BOOT_PDE : Nat := 0x12000
def BOOT_GDT_NULL : Nat := 0
def BOOT_GDT_CODE : Nat := 1
def BOOT_GDT_DATA : Nat := 2
def BOOT_GDT_MAX : Nat := 3
def KVM_32BIT_MAX_MEM_SIZE : Nat := (1 <<< 32) % 2 ^ 64
def KVM_32BIT_GAP_SIZE : Nat := 768 <<< 20
def KVM_32BIT_GAP_START : Nat := KVM_32BIT_MAX_MEM_SIZE - KVM_32BIT_GAP_SIZE

/-- The loop bound `0x20000000ULL` of `setup_guest_mem`: the bring-up ceiling. -/
def BOOT_CEILING : Nat := 0x20000000

/-! ## Descriptor macros of `kvm.h` -/

/-- The macro `GDT_ENTRY(flags, base, limit)`; every operand is widened to
`unsigned long long` by the `ULL` masks, so each shift is taken modulo `2 ^ 64`. -/
def GDT_ENTRY (flags base limit : Nat) : Nat :=
  (((base &&& 0xff000000) <<< (56 - 24)) % 2 ^ 64) |||
  (((flags &&& 0x0000f0ff) <<< 40) % 2 ^ 64) |||
  (((limit &&& 0x000f0000) <<< (48 - 16)) % 2 ^ 64) |||
  (((base &&& 0x00ffffff) <<< 16) % 2 ^ 64) |||
  (limit &&& 0x0000ffff)

def GDT_DESC_OFFSET (n : Nat) : Nat := n * 0x8

def GDT_GET_BASE (x : Nat) : Nat :=
  ((x &&& 0xFF00000000000000) >>> 32) |||
  ((x &&& 0x000000FF00000000) >>> 16) |||
  ((x &&& 0x00000000FFFF0000) >>> 16)

/-- The macro `GDT_GET_LIMIT(x)`, with its cast to `__u32`. -/
def GDT_GET_LIMIT (x : Nat) : Nat :=
  (((x &&& 0x000F000000000000) >>> 32) ||| (x &&& 0x000000000000FFFF)) % 2 ^ 32

/-- The macro `GDT_GET_G(x)`, with its cast to `__u8`; likewise below. -/
def GDT_GET_G (x : Nat) : Nat := ((x &&& 0x0080000000000000) >>> 55) % 2 ^ 8
def GDT_GET_DB (x : Nat) : Nat := ((x &&& 0x0040000000000000) >>> 54) % 2 ^ 8
def GDT_GET_L (x : Nat) : Nat := ((x &&& 0x0020000000000000) >>> 53) % 2 ^ 8
def GDT_GET_AVL (x : Nat) : Nat := ((x &&& 0x0010000000000000) >>> 52) % 2 ^ 8
def GDT_GET_P (x : Nat) : Nat := ((x &&& 0x0000800000000000) >>> 47) % 2 ^ 8
def GDT_GET_DPL (x : Nat) : Nat := ((x &&& 0x0000600000000000) >>> 45) % 2 ^ 8
def GDT_GET_S (x : Nat) : Nat := ((x &&& 0x0000100000000000) >>> 44) % 2 ^ 8
def GDT_GET_TYPE (x : Nat) : Nat := ((x &&& 0x00000F0000000000) >>> 40) % 2 ^ 8

/-! ## Guest memory -/

/-- Guest memory seen through the `uint8_t *mem` pointer: the byte at each offset. -/
abbrev Mem := Nat → Nat

/-- The call `memset(mem + dst, c, n)`. -/
def memset (m : Mem) (dst c n : Nat) : Mem :=
  fun a => if dst ≤ a ∧ a < dst + n then c % 256 else m a

/-- A `uint64_t` store at byte offset `addr`, little-endian. -/
def store64 (m : Mem) (addr v : Nat) : Mem :=
  fun a => if addr ≤ a ∧ a < addr + 8 then (v / 256 ^ (a - addr)) % 256 else m a

/-- A `uint64_t` load from byte offset `addr`, little-endian. -/
def load64 (m : Mem) (addr : Nat) : Nat :=
  m addr % 256 + 256 * (m (addr + 1) % 256) + 256 ^ 2 * (m (addr + 2) % 256)
    + 256 ^ 3 * (m (addr + 3) % 256) + 256 ^ 4 * (m (addr + 4) % 256)
    + 256 ^ 5 * (m (addr + 5) % 256) + 256 ^ 6 * (m (addr + 6) % 256)
    + 256 ^ 7 * (m (addr + 7) % 256)

/-! ## `setup_guest_mem` (`mem.c`) -/

/-- The loop
`for (paddr = 0; paddr < 0x20000000ULL; paddr += GUEST_PAGE_SIZE, pde++)
   *pde = paddr | (X86_PDPT_P | X86_PDPT_RW | X86_PDPT_PS);`
entered with the current `paddr` and the byte offset `pde` of the cursor. -/
def pde_loop (paddr pde : Nat) (m : Mem) : Mem :=
  if paddr < BOOT_CEILING then
    pde_loop ((paddr + GUEST_PAGE_SIZE) % 2 ^ 64) (pde + 8)
      (store64 m pde (paddr ||| (X86_PDPT_P ||| X86_PDPT_RW ||| X86_PDPT_PS)))
  else m
termination_by BOOT_CEILING - paddr
decreasing_by
  simp only [BOOT_CEILING, GUEST_PAGE_SIZE] at *
  omega

/-- The body of `setup_guest_mem` after the null check. -/
def setup_guest_mem_body (m : Mem) : Mem :=
  let gdt := BOOT_GDT
  let pml4 := BOOT_PML4
  let pdpte := BOOT_PDPTE
  let pde := BOOT_PDE
  let m := memset m pml4 0x00 4096
  let m := memset m pdpte 0x00 4096
  let m := memset m pde 0x00 4096
  let m := store64 m pml4 (BOOT_PDPTE ||| (X86_PDPT_P ||| X86_PDPT_RW))
  let m := store64 m pdpte (BOOT_PDE ||| (X86_PDPT_P ||| X86_PDPT_RW))
  let m := pde_loop 0 pde m
  let m := store64 m (gdt + 8 * BOOT_GDT_NULL) (GDT_ENTRY 0 0 0)
  let m := store64 m (gdt + 8 * BOOT_GDT_CODE) (GDT_ENTRY 0xA09B 0 0xFFFFF)
  let m := store64 m (gdt + 8 * BOOT_GDT_DATA) (GDT_ENTRY 0xC093 0 0xFFFFF)
  m

/-- The function `setup_guest_mem(mem)`: the return value and the memory
afterwards.  `EFAULT` is the value of the `errno.h` constant. -/
def setup_guest_mem (EFAULT : Int) (mem : Option Mem) : Int × Option Mem :=
  match mem with
  | none => (-EFAULT, none)
  | some m => (0, some (setup_guest_mem_body m))

/-! ## The address translation the page-table properties are stated against

These three definitions are not code of the repository: they spell out the
long-mode walk PML4 → PDPT → PDE with a 2MB leaf, which the processor performs
on the tables `setup_guest_mem` writes. -/

/-- The index into the paging structure of level `level` (1 = PDE, 2 = PDPT,
3 = PML4) for the address `a`: nine address bits from bit `12 + 9 * level`. -/
def pt_index (level a : Nat) : Nat := (a >>> (12 + 9 * level)) &&& 0x1ff

/-- The address of the next table held in a PML4 or PDPT entry: bits 12..51. -/
def pt_next (e : Nat) : Nat := e &&& 0x000FFFFFFFFFF000

/-- The base of the 2MB page held in a leaf PDE entry: bits 21..51. -/
def pde_base (e : Nat) : Nat := e &&& 0x000FFFFFFFE00000

/-- The walk PML4 → PDPT → PDE for the address `a`, starting from the PML4 at
offset `cr3`: the PDE entry reached, or `none` when the PML4 or PDPT entry on
the way is not present. -/
def page_walk (m : Mem) (cr3 a : Nat) : Option Nat :=
  let e4 := load64 m (cr3 + 8 * pt_index 3 a)
  if e4.testBit X86_PDPT_P_BIT then
    let e3 := load64 m (pt_next e4 + 8 * pt_index 2 a)
    if e3.testBit X86_PDPT_P_BIT then
      some (load64 m (pt_next e3 + 8 * pt_index 1 a))
    else none
  else none

/-! ## Process termination and the `kvm_ioctl` wrapper (`kvm.h`) -/

/-- The ways the code ends the process with `err(1, ...)`, one per message. -/
inductive Fatal where
  /-- The wrapper: `err(1, "KVM: ioctl " #cmd " failed")`. -/
  | ioctl_failed (cmd : String)
  /-- In `kvm_init_vm`: `err(1, "mmap failed")`. -/
  | mmap_failed
  /-- In `kvm_run`: `err(1, "KVM: host/guest translation fault: rip=0x%llx", regs.rip)`. -/
  | translation_fault (rip : Nat)
  /-- In `kvm_run`: `err(1, "KVM: ioctl KVM_RUN failed")`. -/
  | run_failed
  deriving DecidableEq, Repr

/-- The macro `kvm_ioctl(fd, cmd, arg)` applied to the value `ret` that the
underlying `ioctl` call gave back: the process ends when `ret == -1`, whatever
`errno` is; otherwise the value of the expression is `ret`. -/
def kvm_ioctl (cmd : String) (ret : Int) : Except Fatal Int :=
  if ret = -1 then .error (Fatal.ioctl_failed cmd) else .ok ret

/-! ## The CPUID filter (`kvm.c`) -/

/-- Modelled from the spec: `struct kvm_cpuid_entry2` is declared in the system
header `<linux/kvm.h>`, which is not part of the sources; one entry of the
feature descriptor: the function leaf and its register values, each a 32-bit
value (the trailing padding is left out). -/
structure kvm_cpuid_entry2 where
  function : Nat
  index : Nat
  flags : Nat
  eax : Nat
  ebx : Nat
  ecx : Nat
  edx : Nat
  deriving DecidableEq, Repr

/-- Modelled from the spec: `struct kvm_cpuid2` is declared in the system header
`<linux/kvm.h>`; the feature descriptor: the entry count `nent` and the entry
buffer. -/
structure kvm_cpuid2 where
  nent : Nat
  entries : List kvm_cpuid_entry2
  deriving DecidableEq, Repr

/-- The body of the loop of `filter_cpuid`, the `switch (entry->function)`, with
the value of the global `cap_tsc_deadline`.  The operands of `|=` are 32-bit
(`1U << n`), so no result leaves 32 bits. -/
def filter_entry (cap_tsc_deadline : Bool) (entry : kvm_cpuid_entry2) : kvm_cpuid_entry2 :=
  if entry.function = 1 then
    let entry := { entry with ecx := entry.ecx ||| ((1 <<< 31) % 2 ^ 32) }
    let entry :=
      if cap_tsc_deadline then { entry with ecx := entry.ecx ||| ((1 <<< 24) % 2 ^ 32) }
      else entry
    { entry with edx := entry.edx ||| ((1 <<< 5) % 2 ^ 32) }
  else if entry.function = CPUID_FUNC_PERFMON then
    { entry with eax := 0x00 }
  else
    entry

/-- The loop `for (i = 0; i < kvm_cpuid->nent; i++)` of `filter_cpuid`, entered
with the current `i`; `entries[i]` is rewritten in place.  (An index past the
buffer, which C leaves undefined, rewrites nothing.) -/
def filter_cpuid_loop (cap_tsc_deadline : Bool) (nent i : Nat)
    (entries : List kvm_cpuid_entry2) : List kvm_cpuid_entry2 :=
  if i < nent then
    filter_cpuid_loop cap_tsc_deadline nent (i + 1)
      (entries.modify (filter_entry cap_tsc_deadline) i)
  else entries
termination_by nent - i

/-- The function `filter_cpuid(kvm_cpuid)`, with the value of the global
`cap_tsc_deadline` it reads. -/
def filter_cpuid (cap_tsc_deadline : Bool) (kvm_cpuid : kvm_cpuid2) : kvm_cpuid2 :=
  { kvm_cpuid with
    entries := filter_cpuid_loop cap_tsc_deadline kvm_cpuid.nent 0 kvm_cpuid.entries }

/-- The two file-scope variables of `kvm.c`; a `NULL` `kvm_cpuid` is `none`. -/
structure Globals where
  cap_tsc_deadline : Bool
  kvm_cpuid : Option kvm_cpuid2
  deriving DecidableEq, Repr

/-- What the system gives back to one call of `kvm_create_vm`: the results of
its three `ioctl` calls and the descriptor that `KVM_GET_SUPPORTED_CPUID`
leaves in the buffer passed to it. -/
structure CreateVmEnv where
  create_vm : Int
  check_extension : Int
  get_supported_cpuid : Int
  host_cpuid : kvm_cpuid2

/-- The function `kvm_create_vm(fd, flags)`: the returned `vmfd` and the
file-scope variables afterwards.  (`calloc` is taken to succeed; the buffer it
returns is overwritten by the `KVM_GET_SUPPORTED_CPUID` request.) -/
def kvm_create_vm (g : Globals) (env : CreateVmEnv) : Except Fatal (Int × Globals) :=
  match kvm_ioctl "KVM_CREATE_VM" env.create_vm with
  | .error f => .error f
  | .ok vmfd =>
    match kvm_ioctl "KVM_CHECK_EXTENSION" env.check_extension with
    | .error f => .error f
    | .ok r =>
      let cap_tsc_deadline := if r ≤ 0 then false else true
      match g.kvm_cpuid with
      | none =>
        match kvm_ioctl "KVM_GET_SUPPORTED_CPUID" env.get_supported_cpuid with
        | .error f => .error f
        | .ok _ =>
          .ok (vmfd, { cap_tsc_deadline := cap_tsc_deadline,
                       kvm_cpuid := some (filter_cpuid cap_tsc_deadline env.host_cpuid) })
      | some d => .ok (vmfd, { cap_tsc_deadline := cap_tsc_deadline, kvm_cpuid := some d })

/-! ## Guest memory allocation and registration (`kvm.c`) -/

/-- Modelled from the spec: `struct kvm_userspace_memory_region` is declared in
the system header `<linux/kvm.h>`; one registered chunk of guest memory: a
numeric slot, a guest-physical base address, a size and a host base address. -/
structure kvm_userspace_memory_region where
  slot : Nat
  flags : Nat
  guest_phys_addr : Nat
  memory_size : Nat
  userspace_addr : Nat
  deriving DecidableEq, Repr

/-- The requests `kvm_init_vm` sends to the system, with their arguments. -/
inductive Request where
  /-- The request `ioctl(vmfd, KVM_SET_IDENTITY_MAP_ADDR, &identity_base)`. -/
  | set_identity_map_addr (addr : Nat)
  /-- The request `ioctl(vmfd, KVM_SET_TSS_ADDR, addr)`. -/
  | set_tss_addr (addr : Nat)
  /-- The call `mmap(NULL, length, PROT_READ | PROT_WRITE, ...)`. -/
  | mmap (length : Nat)
  /-- The call `mprotect(addr, len, PROT_NONE)`. -/
  | mprotect (addr len : Nat)
  /-- The call `madvise(addr, len, MADV_HUGEPAGE)`. -/
  | madvise (addr len : Nat)
  /-- The request `ioctl(vmfd, KVM_SET_USER_MEMORY_REGION, &kvm_region)`. -/
  | set_user_memory_region (region : kvm_userspace_memory_region)
  deriving DecidableEq, Repr

/-- What the system gives back to one call of `kvm_init_vm`: the result of each
`ioctl` call in program order and the address `mmap` returns (`none` for
`MAP_FAILED`).  The results of `mprotect` and `madvise` are not read by the code. -/
structure InitVmEnv where
  check_extension : Int
  set_identity_map_addr : Int
  set_tss_addr : Int
  mmap : Option Nat
  set_user_memory_region_0 : Int
  set_user_memory_region_1 : Int

/-- The function `kvm_init_vm(vmfd, guest_size)`: the returned `guest_mem` and
the requests sent, in order.  `guest_size` is a `size_t` and addresses are
`uint64_t`, so sums and differences are taken modulo `2 ^ 64`. -/
def kvm_init_vm (env : InitVmEnv) (guest_size : Nat) :
    Except Fatal (Nat × List Request) :=
  let identity_base : Nat := 0xfffbc000
  match kvm_ioctl "KVM_CHECK_EXTENSION" env.check_extension with
  | .error f => .error f
  | .ok sync_mmu =>
    let step1 : Except Fatal (Nat × List Request) :=
      if sync_mmu > 0 then
        let identity_base : Nat := 0xfeffc000
        match kvm_ioctl "KVM_SET_IDENTITY_MAP_ADDR" env.set_identity_map_addr with
        | .error f => .error f
        | .ok _ => .ok (identity_base, [Request.set_identity_map_addr identity_base])
      else .ok (identity_base, [])
    match step1 with
    | .error f => .error f
    | .ok (identity_base, log) =>
      match kvm_ioctl "KVM_SET_TSS_ADDR" env.set_tss_addr with
      | .error f => .error f
      | .ok _ =>
        let log := log ++ [Request.set_tss_addr ((identity_base + 0x1000) % 2 ^ 64)]
        let step2 : Except Fatal (Nat × Nat × List Request) :=
          if guest_size < KVM_32BIT_GAP_START then
            match env.mmap with
            | none => .error Fatal.mmap_failed
            | some guest_mem => .ok (guest_size, guest_mem, log ++ [Request.mmap guest_size])
          else
            let guest_size := (guest_size + KVM_32BIT_GAP_SIZE) % 2 ^ 64
            match env.mmap with
            | none => .error Fatal.mmap_failed
            | some guest_mem =>
              .ok (guest_size, guest_mem, log ++ [Request.mmap guest_size,
                Request.mprotect ((guest_mem + KVM_32BIT_GAP_START) % 2 ^ 64) KVM_32BIT_GAP_SIZE])
        match step2 with
        | .error f => .error f
        | .ok (guest_size, guest_mem, log) =>
          let log := log ++ [Request.madvise guest_mem guest_size]
          let kvm_region : kvm_userspace_memory_region :=
            { slot := 0, guest_phys_addr := GUEST_OFFSET, memory_size := guest_size,
              userspace_addr := guest_mem, flags := 0 }
          if guest_size ≤ KVM_32BIT_GAP_START - GUEST_OFFSET then
            match kvm_ioctl "KVM_SET_USER_MEMORY_REGION" env.set_user_memory_region_0 with
            | .error f => .error f
            | .ok _ => .ok (guest_mem, log ++ [Request.set_user_memory_region kvm_region])
          else
            let kvm_region :=
              { kvm_region with memory_size := KVM_32BIT_GAP_START - GUEST_OFFSET }
            match kvm_ioctl "KVM_SET_USER_MEMORY_REGION" env.set_user_memory_region_0 with
            | .error f => .error f
            | .ok _ =>
              let log := log ++ [Request.set_user_memory_region kvm_region]
              let kvm_region := { kvm_region with slot := 1 }
              let kvm_region :=
                { kvm_region with guest_phys_addr := KVM_32BIT_GAP_START + KVM_32BIT_GAP_SIZE }
              let kvm_region :=
                { kvm_region with
                  userspace_addr :=
                    (guest_mem + KVM_32BIT_GAP_START + KVM_32BIT_GAP_SIZE) % 2 ^ 64 }
              let kvm_region :=
                { kvm_region with
                  memory_size :=
                    (guest_size + 2 ^ 64 - KVM_32BIT_GAP_SIZE + 2 ^ 64 - KVM_32BIT_GAP_START
                      + GUEST_OFFSET) % 2 ^ 64 }
              match kvm_ioctl "KVM_SET_USER_MEMORY_REGION" env.set_user_memory_region_1 with
              | .error f => .error f
              | .ok _ => .ok (guest_mem, log ++ [Request.set_user_memory_region kvm_region])

/-- The memory regions registered by a sequence of requests, in order. -/
def registered : List Request → List kvm_userspace_memory_region
  | [] => []
  | Request.set_user_memory_region r :: rest => r :: registered rest
  | _ :: rest => registered rest

/-- The lengths of the mappings allocated by a sequence of requests, in order. -/
def mapped : List Request → List Nat
  | [] => []
  | Request.mmap len :: rest => len :: mapped rest
  | _ :: rest => mapped rest

/-- The guest-physical address `a` lies inside the region `r`. -/
def in_region (r : kvm_userspace_memory_region) (a : Nat) : Prop :=
  r.guest_phys_addr ≤ a ∧ a < r.guest_phys_addr + r.memory_size

/-! ## The run loop (`kvm.c`) -/

/-- What one `ioctl` call gives back: its return value and the value of
`errno` it leaves. -/
structure IoctlResult where
  ret : Int
  errno : Int
  deriving DecidableEq, Repr

/-- How a call of `kvm_run` ends, with the number of `KVM_RUN` requests it
issued: it returns `ret`, it ends the process, or it is still waiting for a
request to come back (no further result is supplied). -/
inductive RunOutcome where
  | returned (ret : Int) (requests : Nat)
  | exited (f : Fatal) (requests : Nat)
  | waiting (requests : Nat)
  deriving DecidableEq, Repr

/-- The function `kvm_run(fd)` from the label `retry:` on, given the results of
the successive `KVM_RUN` requests, the result of the `KVM_GET_REGS` request
with the `rip` it reads, and the number of `KVM_RUN` requests issued so far.
`EINTR` and `EFAULT` are the values of the `errno.h` constants. -/
def kvm_run_retry (EINTR EFAULT : Int) (get_regs : IoctlResult) (rip : Nat) :
    List IoctlResult → Nat → RunOutcome
  | [], requests => RunOutcome.waiting requests
  | r :: rest, requests =>
    match kvm_ioctl "KVM_RUN" r.ret with
    | .error f => RunOutcome.exited f (requests + 1)
    | .ok ret =>
      if ret = -1 then
        if r.errno = EINTR then
          kvm_run_retry EINTR EFAULT get_regs rip rest (requests + 1)
        else if r.errno = EFAULT then
          match kvm_ioctl "KVM_GET_REGS" get_regs.ret with
          | .error f => RunOutcome.exited f (requests + 1)
          | .ok _ => RunOutcome.exited (Fatal.translation_fault rip) (requests + 1)
        else
          RunOutcome.exited Fatal.run_failed (requests + 1)
      else
        RunOutcome.returned ret (requests + 1)

/-- The function `kvm_run(fd)`. -/
def kvm_run (EINTR EFAULT : Int) (get_regs : IoctlResult) (rip : Nat)
    (run_results : List IoctlResult) : RunOutcome :=
  kvm_run_retry EINTR EFAULT get_regs rip run_results 0

/-! ## vCPU bring-up (`kvm.c`) -/

def MSR_IA32_MISC_ENABLE : Nat := 0x000001a0
def _EFER_LME : Nat := 8
def _EFER_LMA : Nat := 10
def EFER_LME : Nat := 1 <<< _EFER_LME
def EFER_LMA : Nat := 1 <<< _EFER_LMA

/-- Modelled from the spec: `struct kvm_segment` is declared in the system header
`<linux/kvm.h>`; one segment register: `base` is 64-bit, `limit` 32-bit,
`selector` 16-bit and the remaining fields 8-bit (the padding is left out). -/
structure kvm_segment where
  base : Nat
  limit : Nat
  selector : Nat
  type : Nat
  present : Nat
  dpl : Nat
  db : Nat
  s : Nat
  l : Nat
  g : Nat
  avl : Nat
  unusable : Nat
  deriving DecidableEq, Repr

/-- Modelled from the spec: `struct kvm_dtable` is declared in the system header
`<linux/kvm.h>`; a descriptor table register: 64-bit `base`, 16-bit `limit`. -/
structure kvm_dtable where
  base : Nat
  limit : Nat
  deriving DecidableEq, Repr

/-- Modelled from the spec: `struct kvm_sregs` is declared in the system header
`<linux/kvm.h>`; the system-register snapshot of a vCPU: segment registers,
descriptor tables, control registers, EFER, the APIC base and the interrupt
bitmap. -/
structure kvm_sregs where
  cs : kvm_segment
  ds : kvm_segment
  es : kvm_segment
  fs : kvm_segment
  gs : kvm_segment
  ss : kvm_segment
  tr : kvm_segment
  ldt : kvm_segment
  gdt : kvm_dtable
  idt : kvm_dtable
  cr0 : Nat
  cr2 : Nat
  cr3 : Nat
  cr4 : Nat
  cr8 : Nat
  efer : Nat
  apic_base : Nat
  interrupt_bitmap : List Nat
  deriving DecidableEq, Repr

/-- Modelled from the spec: `struct kvm_regs` is declared in the system header
`<linux/kvm.h>`; the general-purpose registers of a vCPU, each 64-bit. -/
structure kvm_regs where
  rax : Nat
  rbx : Nat
  rcx : Nat
  rdx : Nat
  rsi : Nat
  rdi : Nat
  rsp : Nat
  rbp : Nat
  r8 : Nat
  r9 : Nat
  r10 : Nat
  r11 : Nat
  r12 : Nat
  r13 : Nat
  r14 : Nat
  r15 : Nat
  rip : Nat
  rflags : Nat
  deriving DecidableEq, Repr

/-- The macro `GDT_TO_KVM_SEGMENT(seg, gdt_table, sel)`, applied to the current
value of `seg`; `gdt_table` stands for the subscript `gdt_table[·]`.  The
descriptor is a `__u64`; `sel * 8` is computed in the type of `sel` (64-bit at
both calls) and stored in the 16-bit `selector`; `unusable` is not assigned. -/
def GDT_TO_KVM_SEGMENT (seg : kvm_segment) (gdt_table : Nat → Nat) (sel : Nat) :
    kvm_segment :=
  let gdt_ent := gdt_table sel % 2 ^ 64
  { seg with
    base := GDT_GET_BASE gdt_ent
    limit := GDT_GET_LIMIT gdt_ent
    selector := (sel * 8) % 2 ^ 64 % 2 ^ 16
    type := GDT_GET_TYPE gdt_ent
    present := GDT_GET_P gdt_ent
    dpl := GDT_GET_DPL gdt_ent
    db := GDT_GET_DB gdt_ent
    s := GDT_GET_S gdt_ent
    l := GDT_GET_L gdt_ent
    g := GDT_GET_G gdt_ent
    avl := GDT_GET_AVL gdt_ent }

/-- The function `setup_system_64bit(sregs)`. -/
def setup_system_64bit (sregs : kvm_sregs) : kvm_sregs :=
  let sregs := { sregs with cr3 := BOOT_PML4 }
  let sregs := { sregs with cr0 := sregs.cr0 ||| (X86_CR0_PE ||| X86_CR0_PG) }
  let sregs := { sregs with cr4 := sregs.cr4 ||| X86_CR4_PAE }
  { sregs with efer := sregs.efer ||| (EFER_LME ||| EFER_LMA) }

/-- What C leaves open in `setup_system_gdt`: the contents of the locals
`code_seg` and `data_seg`, declared without an initialiser, and the value of
the subscript `gdt_table[sel]` at the two uses of `GDT_TO_KVM_SEGMENT`, where
the argument bound to `gdt_table` is an integer constant (`BOOT_GDT_CODE`,
`BOOT_GDT_DATA`) and the argument bound to `sel` is the descriptor. -/
structure Unspecified where
  code_seg : kvm_segment
  data_seg : kvm_segment
  subscript : Nat → Nat → Nat

/-- The function `setup_system_gdt(sregs)`.  The calls are
`GDT_TO_KVM_SEGMENT(code_seg, BOOT_GDT_CODE, code_ent)` and
`GDT_TO_KVM_SEGMENT(data_seg, BOOT_GDT_DATA, data_ent)`: the macro parameter
`gdt_table` receives the index and `sel` receives the descriptor. -/
def setup_system_gdt (u : Unspecified) (sregs : kvm_sregs) : kvm_sregs :=
  let sregs := { sregs with gdt := { sregs.gdt with base := BOOT_GDT } }
  let sregs := { sregs with gdt := { sregs.gdt with limit := (8 * BOOT_GDT_MAX - 1) % 2 ^ 16 } }
  let code_ent := GDT_ENTRY 0xA09B 0 0xFFFFF
  let data_ent := GDT_ENTRY 0xC093 0 0xFFFFF
  let code_seg := GDT_TO_KVM_SEGMENT u.code_seg (u.subscript BOOT_GDT_CODE) code_ent
  let data_seg := GDT_TO_KVM_SEGMENT u.data_seg (u.subscript BOOT_GDT_DATA) data_ent
  let sregs := { sregs with cs := code_seg }
  let sregs := { sregs with ds := data_seg }
  let sregs := { sregs with es := data_seg }
  let sregs := { sregs with fs := data_seg }
  let sregs := { sregs with gs := data_seg }
  let sregs := { sregs with ss := data_seg }
  { sregs with apic_base := APIC_DEFAULT_BASE }

/-- The requests `kvm_init_vcpu` sends to a vCPU, with their arguments. -/
inductive VcpuRequest where
  /-- The request `ioctl(vcpufd, KVM_SET_CPUID2, kvm_cpuid)`. -/
  | set_cpuid2 (cpuid : Option kvm_cpuid2)
  /-- The request `ioctl(vcpufd, KVM_SET_MP_STATE, &mp_state)` with
  `KVM_MP_STATE_RUNNABLE`. -/
  | set_mp_state_runnable
  /-- The request `ioctl(vcpufd, KVM_SET_MSRS, &msr_data)`: `nmsrs` and the
  `(index, data)` pairs assigned. -/
  | set_msrs (nmsrs : Nat) (entries : List (Nat × Nat))
  /-- The request `ioctl(vcpufd, KVM_GET_SREGS, &sregs)`. -/
  | get_sregs
  /-- The request `ioctl(vcpufd, KVM_SET_SREGS, &sregs)`. -/
  | set_sregs (sregs : kvm_sregs)
  /-- The request `ioctl(vcpufd, KVM_SET_REGS, &regs)`. -/
  | set_regs (regs : kvm_regs)
  deriving DecidableEq, Repr

/-- What the system gives back to one call of `setup_system`: the results of
`KVM_GET_SREGS` and `KVM_SET_SREGS` and the system-register state the vCPU
holds, which `KVM_GET_SREGS` reads. -/
structure SetupSystemEnv where
  get_sregs : Int
  vcpu_sregs : kvm_sregs
  set_sregs : Int

/-- The function `setup_system(vcpufd, id)`, with the value `sregs` of its
`static struct kvm_sregs sregs`: the value of the static afterwards and the
requests sent, in order. -/
def setup_system (u : Unspecified) (sregs : kvm_sregs) (env : SetupSystemEnv) (id : Nat) :
    Except Fatal (kvm_sregs × List VcpuRequest) :=
  let step : Except Fatal (kvm_sregs × List VcpuRequest) :=
    if id = 0 then
      match kvm_ioctl "KVM_GET_SREGS" env.get_sregs with
      | .error f => .error f
      | .ok _ =>
        let sregs := env.vcpu_sregs
        let sregs := setup_system_gdt u sregs
        let sregs := setup_system_64bit sregs
        .ok (sregs, [VcpuRequest.get_sregs])
    else .ok (sregs, [])
  match step with
  | .error f => .error f
  | .ok (sregs, log) =>
    match kvm_ioctl "KVM_SET_SREGS" env.set_sregs with
    | .error f => .error f
    | .ok _ => .ok (sregs, log ++ [VcpuRequest.set_sregs sregs])

/-- What the system gives back to one call of `kvm_init_vcpu`. -/
structure InitVcpuEnv where
  set_cpuid2 : Int
  set_mp_state : Int
  set_msrs : Int
  system : SetupSystemEnv
  set_regs : Int

/-- The function `kvm_init_vcpu(vcpufd, cpuid, elf_entry)`, with the values of
the file-scope `kvm_cpuid` and of the static `sregs` of `setup_system`: the
return value, the static `sregs` afterwards and the requests sent, in order.
The `int cpuid` is converted to the `uint32_t id` of `setup_system`. -/
def kvm_init_vcpu (u : Unspecified) (g : Globals) (sregs : kvm_sregs) (env : InitVcpuEnv)
    (cpuid : Int) (elf_entry : Nat) : Except Fatal (Int × kvm_sregs × List VcpuRequest) :=
  let regs : kvm_regs :=
    { rip := elf_entry, rsp := 0x200000 - 0x1000, rflags := 0x2,
      rax := 0, rbx := 0, rcx := 0, rdx := 0, rsi := 0, rdi := 0, rbp := 0,
      r8 := 0, r9 := 0, r10 := 0, r11 := 0, r12 := 0, r13 := 0, r14 := 0, r15 := 0 }
  match kvm_ioctl "KVM_SET_CPUID2" env.set_cpuid2 with
  | .error f => .error f
  | .ok _ =>
    let log := [VcpuRequest.set_cpuid2 g.kvm_cpuid]
    match kvm_ioctl "KVM_SET_MP_STATE" env.set_mp_state with
    | .error f => .error f
    | .ok _ =>
      let log := log ++ [VcpuRequest.set_mp_state_runnable]
      match kvm_ioctl "KVM_SET_MSRS" env.set_msrs with
      | .error f => .error f
      | .ok _ =>
        let log := log ++ [VcpuRequest.set_msrs 1 [(MSR_IA32_MISC_ENABLE, 1)]]
        match setup_system u sregs env.system (cpuid % 2 ^ 32).toNat with
        | .error f => .error f
        | .ok (sregs, log_system) =>
          let log := log ++ log_system
          match kvm_ioctl "KVM_SET_REGS" env.set_regs with
          | .error f => .error f
          | .ok _ => .ok (0, sregs, log ++ [VcpuRequest.set_regs regs])

/-- The all-zero segment register. -/
def zero_segment : kvm_segment :=
  { base := 0, limit := 0, selector := 0, type := 0, present := 0, dpl := 0, db := 0,
    s := 0, l := 0, g := 0, avl := 0, unusable := 0 }

/-- The initial value of the `static struct kvm_sregs sregs` of `setup_system`:
a static without an initialiser is zero-initialised. -/
def initial_sregs : kvm_sregs :=
  { cs := zero_segment, ds := zero_segment, es := zero_segment, fs := zero_segment,
    gs := zero_segment, ss := zero_segment, tr := zero_segment, ldt := zero_segment,
    gdt := { base := 0, limit := 0 }, idt := { base := 0, limit := 0 },
    cr0 := 0, cr2 := 0, cr3 := 0, cr4 := 0, cr8 := 0, efer := 0, apic_base := 0,
    interrupt_bitmap := [0, 0, 0, 0] }

/-- The initial values of the file-scope variables: `cap_tsc_deadline = false`
and `kvm_cpuid = NULL`. -/
def initial_globals : Globals := { cap_tsc_deadline := false, kvm_cpuid := none }

/-- A process that calls `kvm_create_vm` once per element of the list, in
order, each call finding the file-scope variables as the previous one left
them: the file-scope variables after the last call. -/
def kvm_create_vm_calls (g : Globals) : List CreateVmEnv → Except Fatal Globals
  | [] => .ok g
  | env :: rest =>
    match kvm_create_vm g env with
    | .error f => .error f
    | .ok (_, g') => kvm_create_vm_calls g' rest

/-! ## Memory lemmas -/

theorem pde_flags_eq : X86_PDPT_P ||| X86_PDPT_RW ||| X86_PDPT_PS = 0x83 := by decide

theorem table_flags_eq : X86_PDPT_P ||| X86_PDPT_RW = 0x3 := by decide

theorem load64_congr (m m' : Mem) (a : Nat)
    (h : ∀ i, i < 8 → m' (a + i) = m (a + i)) : load64 m' a = load64 m a := by
  have h0 := h 0 (by omega)
  simp only [Nat.add_zero] at h0
  simp only [load64, h0, h 1 (by omega), h 2 (by omega), h 3 (by omega), h 4 (by omega),
    h 5 (by omega), h 6 (by omega), h 7 (by omega)]

theorem store64_frame (m : Mem) (a v b : Nat) (h : b < a ∨ a + 8 ≤ b) :
    store64 m a v b = m b := by
  unfold store64
  rw [if_neg]
  omega

theorem store64_at (m : Mem) (a v i : Nat) (h : i < 8) :
    store64 m a v (a + i) = (v / 256 ^ i) % 256 := by
  unfold store64
  rw [if_pos (by omega)]
  congr 3
  omega

theorem load64_store64 (m : Mem) (a v : Nat) (hv : v < 2 ^ 64) :
    load64 (store64 m a v) a = v := by
  have h0 := store64_at m a v 0 (by omega)
  simp only [Nat.add_zero] at h0
  simp only [load64, h0, store64_at m a v 1 (by omega), store64_at m a v 2 (by omega),
    store64_at m a v 3 (by omega), store64_at m a v 4 (by omega),
    store64_at m a v 5 (by omega), store64_at m a v 6 (by omega),
    store64_at m a v 7 (by omega)]
  norm_num at hv ⊢
  omega

theorem load64_store64_frame (m : Mem) (a v b : Nat) (h : b + 8 ≤ a ∨ a + 8 ≤ b) :
    load64 (store64 m a v) b = load64 m b := by
  apply load64_congr
  intro i hi
  apply store64_frame
  omega

theorem memset_frame (m : Mem) (d c n b : Nat) (h : b < d ∨ d + n ≤ b) :
    memset m d c n b = m b := by
  unfold memset
  rw [if_neg]
  omega

theorem memset_at (m : Mem) (d c n b : Nat) (h : d ≤ b ∧ b < d + n) :
    memset m d c n b = c % 256 := by
  unfold memset
  rw [if_pos h]

theorem load64_memset_frame (m : Mem) (d c n b : Nat) (h : b + 8 ≤ d ∨ d + n ≤ b) :
    load64 (memset m d c n) b = load64 m b := by
  apply load64_congr
  intro i hi
  apply memset_frame
  omega

theorem load64_memset_zero (m : Mem) (d n b : Nat) (h : d ≤ b ∧ b + 8 ≤ d + n) :
    load64 (memset m d 0 n) b = 0 := by
  have hb : ∀ i, i < 8 → memset m d 0 n (b + i) = 0 := by
    intro i hi
    rw [memset_at m d 0 n (b + i) (by omega)]
  have h0 := hb 0 (by omega)
  simp only [Nat.add_zero] at h0
  simp only [load64, h0, hb 1 (by omega), hb 2 (by omega), hb 3 (by omega), hb 4 (by omega),
    hb 5 (by omega), hb 6 (by omega), hb 7 (by omega)]
  rfl

/-! ## The page-directory loop -/

theorem pde_loop_done (paddr pde : Nat) (m : Mem) (h : BOOT_CEILING ≤ paddr) :
    pde_loop paddr pde m = m := by
  rw [pde_loop, if_neg (by omega)]

theorem pde_loop_step (k pde : Nat) (m : Mem) (h : k < 256) :
    pde_loop (k * GUEST_PAGE_SIZE) pde m =
      pde_loop ((k + 1) * GUEST_PAGE_SIZE) (pde + 8)
        (store64 m pde (k * GUEST_PAGE_SIZE ||| 0x83)) := by
  have hlt : k * GUEST_PAGE_SIZE < BOOT_CEILING := by
    simp only [GUEST_PAGE_SIZE, BOOT_CEILING]; omega
  have hnext : (k * GUEST_PAGE_SIZE + GUEST_PAGE_SIZE) % 2 ^ 64 = (k + 1) * GUEST_PAGE_SIZE := by
    simp only [GUEST_PAGE_SIZE]; omega
  rw [pde_loop, if_pos hlt, hnext, pde_flags_eq]

/-- Bytes outside the `n` entries still to be written are left alone by the loop. -/
theorem pde_loop_frame (n : Nat) : ∀ (k pde : Nat) (m : Mem) (b : Nat), k + n = 256 →
    (b < pde ∨ pde + 8 * n ≤ b) → pde_loop (k * GUEST_PAGE_SIZE) pde m b = m b := by
  induction n with
  | zero =>
    intro k pde m b hk _
    rw [pde_loop_done]
    simp only [GUEST_PAGE_SIZE, BOOT_CEILING]; omega
  | succ n ih =>
    intro k pde m b hk hb
    rw [pde_loop_step k pde m (by omega), ih (k + 1) (pde + 8) _ b (by omega) (by omega)]
    exact store64_frame m pde _ b (by omega)

theorem pde_value_lt (k : Nat) (h : k < 256) : k * GUEST_PAGE_SIZE ||| 0x83 < 2 ^ 64 := by
  apply Nat.or_lt_two_pow
  · simp only [GUEST_PAGE_SIZE]; omega
  · decide

/-- Entry `j` of the `n` entries still to be written holds the address of page
`k + j` with the present, writable and page-size bits. -/
theorem pde_loop_entry (n : Nat) : ∀ (k pde : Nat) (m : Mem) (j : Nat), k + n = 256 → j < n →
    load64 (pde_loop (k * GUEST_PAGE_SIZE) pde m) (pde + 8 * j)
      = (k + j) * GUEST_PAGE_SIZE ||| 0x83 := by
  induction n with
  | zero => intro k pde m j _ hj; omega
  | succ n ih =>
    intro k pde m j hk hj
    rw [pde_loop_step k pde m (by omega)]
    cases j with
    | zero =>
      rw [load64_congr (store64 m pde (k * GUEST_PAGE_SIZE ||| 0x83)) _ (pde + 8 * 0)
        (fun i hi => pde_loop_frame n (k + 1) (pde + 8) _ _ (by omega) (by omega))]
      exact load64_store64 m pde _ (pde_value_lt k (by omega))
    | succ j =>
      have h := ih (k + 1) (pde + 8) (store64 m pde (k * GUEST_PAGE_SIZE ||| 0x83)) j
        (by omega) (by omega)
      have e1 : pde + 8 * (j + 1) = pde + 8 + 8 * j := by omega
      have e2 : k + (j + 1) = k + 1 + j := by omega
      rw [e1, e2]
      exact h

/-! ## `setup_guest_mem`: the tables after the call -/

/-- Outside the three GDT slots a load sees what the page-directory loop left. -/
theorem load64_body_off_gdt (m : Mem) (b : Nat) (h : b + 8 ≤ 0x1000 ∨ 0x1018 ≤ b) :
    load64 (setup_guest_mem_body m) b =
      load64 (pde_loop 0 BOOT_PDE
        (store64 (store64 (memset (memset (memset m BOOT_PML4 0 4096) BOOT_PDPTE 0 4096)
          BOOT_PDE 0 4096) BOOT_PML4 (BOOT_PDPTE ||| (X86_PDPT_P ||| X86_PDPT_RW)))
          BOOT_PDPTE (BOOT_PDE ||| (X86_PDPT_P ||| X86_PDPT_RW)))) b := by
  simp only [setup_guest_mem_body, BOOT_GDT, BOOT_GDT_NULL, BOOT_GDT_CODE, BOOT_GDT_DATA]
  rw [load64_store64_frame _ _ _ _ (by omega), load64_store64_frame _ _ _ _ (by omega),
    load64_store64_frame _ _ _ _ (by omega)]

/-- Below the page directory a load sees what was there before the loop. -/
theorem load64_pde_loop_below (m : Mem) (b : Nat) (h : b + 8 ≤ BOOT_PDE) :
    load64 (pde_loop 0 BOOT_PDE m) b = load64 m b := by
  apply load64_congr
  intro i hi
  have := pde_loop_frame 256 0 BOOT_PDE m (b + i) (by omega) (by omega)
  simpa using this

/-- Past the 256 written entries a load sees what was there before the loop. -/
theorem load64_pde_loop_above (m : Mem) (b : Nat) (h : BOOT_PDE + 8 * 256 ≤ b) :
    load64 (pde_loop 0 BOOT_PDE m) b = load64 m b := by
  apply load64_congr
  intro i hi
  have := pde_loop_frame 256 0 BOOT_PDE m (b + i) (by omega) (by omega)
  simpa using this

theorem body_pml4_zero (m : Mem) :
    load64 (setup_guest_mem_body m) BOOT_PML4 = BOOT_PDPTE ||| (X86_PDPT_P ||| X86_PDPT_RW) := by
  rw [load64_body_off_gdt m _ (by simp only [BOOT_PML4]; omega),
    load64_pde_loop_below _ _ (by simp only [BOOT_PML4, BOOT_PDE]; omega),
    load64_store64_frame _ _ _ _ (by simp only [BOOT_PML4, BOOT_PDPTE]; omega),
    load64_store64 _ _ _ (by decide)]

theorem body_pdpte_zero (m : Mem) :
    load64 (setup_guest_mem_body m) BOOT_PDPTE = BOOT_PDE ||| (X86_PDPT_P ||| X86_PDPT_RW) := by
  rw [load64_body_off_gdt m _ (by simp only [BOOT_PDPTE]; omega),
    load64_pde_loop_below _ _ (by simp only [BOOT_PDPTE, BOOT_PDE]; omega),
    load64_store64 _ _ _ (by decide)]

theorem body_pde (m : Mem) (j : Nat) (h : j < 256) :
    load64 (setup_guest_mem_body m) (BOOT_PDE + 8 * j) = j * GUEST_PAGE_SIZE ||| 0x83 := by
  rw [load64_body_off_gdt m _ (by simp only [BOOT_PDE]; omega)]
  have := pde_loop_entry 256 0 BOOT_PDE
    (store64 (store64 (memset (memset (memset m BOOT_PML4 0 4096) BOOT_PDPTE 0 4096)
      BOOT_PDE 0 4096) BOOT_PML4 (BOOT_PDPTE ||| (X86_PDPT_P ||| X86_PDPT_RW)))
      BOOT_PDPTE (BOOT_PDE ||| (X86_PDPT_P ||| X86_PDPT_RW))) j (by omega) h
  simpa using this

set_option maxRecDepth 100000 in
/-- Bit-level facts about the 256 leaf entries, checked one by one. -/
theorem pde_bits (k : Nat) (h : k < 256) :
    pt_index 3 (k * 0x200000) = 0 ∧ pt_index 2 (k * 0x200000) = 0 ∧
    pt_index 1 (k * 0x200000) = k ∧
    (k * 0x200000 ||| 0x83).testBit 0 = true ∧ (k * 0x200000 ||| 0x83).testBit 1 = true ∧
    (k * 0x200000 ||| 0x83).testBit 7 = true ∧ pde_base (k * 0x200000 ||| 0x83) = k * 0x200000 := by
  revert k
  decide

/-- Claim C1.  After `setup_guest_mem` on a non-null buffer `m` the call returns 0
and, in the memory `m'` it leaves: PML4 entry 0 is `0x11000 | P | RW`, PDPT entry 0
is `0x12000 | P | RW`, and for every 2MB-aligned address `a` below the ceiling
`0x20000000` the PDE entry of index `a / 0x200000` is `a | P | RW | PS`; the walk
PML4 → PDPT → PDE for `a` from `BOOT_PML4` ends in that entry, which has bits 0
(present), 1 (writable) and 7 (2MB leaf) set and whose page base is `a`. -/
theorem C1_boot_page_tables_map (EFAULT : Int) (m : Mem) (a : Nat)
    (ha : a < 0x20000000) (hal : a % 0x200000 = 0) :
    ∃ m', setup_guest_mem EFAULT (some m) = (0, some m') ∧
      load64 m' BOOT_PML4 = 0x11000 ||| (X86_PDPT_P ||| X86_PDPT_RW) ∧
      load64 m' BOOT_PDPTE = 0x12000 ||| (X86_PDPT_P ||| X86_PDPT_RW) ∧
      load64 m' (BOOT_PDE + 8 * (a / 0x200000))
        = a ||| (X86_PDPT_P ||| X86_PDPT_RW ||| X86_PDPT_PS) ∧
      page_walk m' BOOT_PML4 a = some (a ||| (X86_PDPT_P ||| X86_PDPT_RW ||| X86_PDPT_PS)) ∧
      (a ||| (X86_PDPT_P ||| X86_PDPT_RW ||| X86_PDPT_PS)).testBit 0 = true ∧
      (a ||| (X86_PDPT_P ||| X86_PDPT_RW ||| X86_PDPT_PS)).testBit 1 = true ∧
      (a ||| (X86_PDPT_P ||| X86_PDPT_RW ||| X86_PDPT_PS)).testBit 7 = true ∧
      pde_base (a ||| (X86_PDPT_P ||| X86_PDPT_RW ||| X86_PDPT_PS)) = a := by
  obtain ⟨k, rfl⟩ : ∃ k, a = k * 0x200000 := ⟨a / 0x200000, by omega⟩
  have hk : k < 256 := by omega
  obtain ⟨h3, h2, h1, b0, b1, b7, hbase⟩ := pde_bits k hk
  have hpml4 := body_pml4_zero m
  have hpdpt := body_pdpte_zero m
  have hpde := body_pde m k hk
  have hdiv : k * 0x200000 / 0x200000 = k := by omega
  rw [pde_flags_eq]
  simp only [GUEST_PAGE_SIZE] at hpde
  refine ⟨setup_guest_mem_body m, rfl, hpml4, hpdpt, ?_, ?_, b0, b1, b7, hbase⟩
  · rw [hdiv]; exact hpde
  · have n4 : pt_next (BOOT_PDPTE ||| (X86_PDPT_P ||| X86_PDPT_RW)) = BOOT_PDPTE := by decide
    have n3 : pt_next (BOOT_PDE ||| (X86_PDPT_P ||| X86_PDPT_RW)) = BOOT_PDE := by decide
    have p4 : (BOOT_PDPTE ||| (X86_PDPT_P ||| X86_PDPT_RW)).testBit X86_PDPT_P_BIT = true := by
      decide
    have p3 : (BOOT_PDE ||| (X86_PDPT_P ||| X86_PDPT_RW)).testBit X86_PDPT_P_BIT = true := by
      decide
    simp only [page_walk, h3, h2, h1, Nat.mul_zero, Nat.add_zero, hpml4, hpdpt, n4, n3, p4, p3,
      if_true, hpde]

/-- Witness for C1 at the second 2MB page, `a = 0x200000`. -/
theorem C1_boot_page_tables_map_witness :
    (0x200000 < 0x20000000 ∧ 0x200000 % 0x200000 = 0) ∧ ∃ m', setup_guest_mem 14 (some (fun _ => 0xAA)) = (0, some m') ∧
      load64 m' BOOT_PML4 = 0x11000 ||| (X86_PDPT_P ||| X86_PDPT_RW) ∧
      load64 m' BOOT_PDPTE = 0x12000 ||| (X86_PDPT_P ||| X86_PDPT_RW) ∧
      load64 m' (BOOT_PDE + 8 * (0x200000 / 0x200000))
        = 0x200000 ||| (X86_PDPT_P ||| X86_PDPT_RW ||| X86_PDPT_PS) ∧
      page_walk m' BOOT_PML4 0x200000
        = some (0x200000 ||| (X86_PDPT_P ||| X86_PDPT_RW ||| X86_PDPT_PS)) ∧
      (0x200000 ||| (X86_PDPT_P ||| X86_PDPT_RW ||| X86_PDPT_PS)).testBit 0 = true ∧
      (0x200000 ||| (X86_PDPT_P ||| X86_PDPT_RW ||| X86_PDPT_PS)).testBit 1 = true ∧
      (0x200000 ||| (X86_PDPT_P ||| X86_PDPT_RW ||| X86_PDPT_PS)).testBit 7 = true ∧
      pde_base (0x200000 ||| (X86_PDPT_P ||| X86_PDPT_RW ||| X86_PDPT_PS)) = 0x200000 :=
  ⟨by decide, C1_boot_page_tables_map 14 (fun _ => 0xAA) 0x200000 (by decide) (by decide)⟩

theorem body_pml4_rest (m : Mem) (i : Nat) (h1 : 1 ≤ i) (h2 : i < 512) :
    load64 (setup_guest_mem_body m) (BOOT_PML4 + 8 * i) = 0 := by
  rw [load64_body_off_gdt m _ (by simp only [BOOT_PML4]; omega),
    load64_pde_loop_below _ _ (by simp only [BOOT_PML4, BOOT_PDE]; omega),
    load64_store64_frame _ _ _ _ (by simp only [BOOT_PML4, BOOT_PDPTE]; omega),
    load64_store64_frame _ _ _ _ (by omega),
    load64_memset_frame _ _ _ _ _ (by simp only [BOOT_PML4, BOOT_PDE]; omega),
    load64_memset_frame _ _ _ _ _ (by simp only [BOOT_PML4, BOOT_PDPTE]; omega),
    load64_memset_zero _ _ _ _ (by omega)]

theorem body_pdpte_rest (m : Mem) (i : Nat) (h1 : 1 ≤ i) (h2 : i < 512) :
    load64 (setup_guest_mem_body m) (BOOT_PDPTE + 8 * i) = 0 := by
  rw [load64_body_off_gdt m _ (by simp only [BOOT_PDPTE]; omega),
    load64_pde_loop_below _ _ (by simp only [BOOT_PDPTE, BOOT_PDE]; omega),
    load64_store64_frame _ _ _ _ (by omega),
    load64_store64_frame _ _ _ _ (by simp only [BOOT_PML4, BOOT_PDPTE]; omega),
    load64_memset_frame _ _ _ _ _ (by simp only [BOOT_PDPTE, BOOT_PDE]; omega),
    load64_memset_zero _ _ _ _ (by omega)]

theorem body_pde_rest (m : Mem) (i : Nat) (h1 : 256 ≤ i) (h2 : i < 512) :
    load64 (setup_guest_mem_body m) (BOOT_PDE + 8 * i) = 0 := by
  rw [load64_body_off_gdt m _ (by simp only [BOOT_PDE]; omega),
    load64_pde_loop_above _ _ (by omega),
    load64_store64_frame _ _ _ _ (by simp only [BOOT_PDPTE, BOOT_PDE]; omega),
    load64_store64_frame _ _ _ _ (by simp only [BOOT_PML4, BOOT_PDE]; omega),
    load64_memset_zero _ _ _ _ (by omega)]

/-- Claim C2.  After `setup_guest_mem` on a buffer with arbitrary contents `m`,
every table entry outside the mapped range is zero, so its present bit (bit 0)
is clear: PML4 entries 1..511, PDPT entries 1..511 and PDE entries 256..511,
the last being the entries of the 2MB-aligned addresses `i * 0x200000` at or
above the ceiling `0x20000000`. -/
theorem C2_unmapped_entries_zero (EFAULT : Int) (m : Mem) (i : Nat) (hi : i < 512) :
    ∃ m', setup_guest_mem EFAULT (some m) = (0, some m') ∧
      (1 ≤ i → load64 m' (BOOT_PML4 + 8 * i) = 0 ∧
        (load64 m' (BOOT_PML4 + 8 * i)).testBit X86_PDPT_P_BIT = false) ∧
      (1 ≤ i → load64 m' (BOOT_PDPTE + 8 * i) = 0 ∧
        (load64 m' (BOOT_PDPTE + 8 * i)).testBit X86_PDPT_P_BIT = false) ∧
      (256 ≤ i → load64 m' (BOOT_PDE + 8 * i) = 0 ∧
        (load64 m' (BOOT_PDE + 8 * i)).testBit X86_PDPT_P_BIT = false ∧
        0x20000000 ≤ i * GUEST_PAGE_SIZE) := by
  refine ⟨setup_guest_mem_body m, rfl, ?_, ?_, ?_⟩
  · intro h1
    rw [body_pml4_rest m i h1 hi]
    exact ⟨rfl, by decide⟩
  · intro h1
    rw [body_pdpte_rest m i h1 hi]
    exact ⟨rfl, by decide⟩
  · intro h1
    rw [body_pde_rest m i h1 hi]
    refine ⟨rfl, by decide, ?_⟩
    simp only [GUEST_PAGE_SIZE]; omega

/-- Witness for C2 at index 300, on a buffer filled with `0xFF` bytes. -/
theorem C2_unmapped_entries_zero_witness :
    300 < 512 ∧ ∃ m', setup_guest_mem 14 (some (fun _ => 0xFF)) = (0, some m') ∧
      (1 ≤ 300 → load64 m' (BOOT_PML4 + 8 * 300) = 0 ∧
        (load64 m' (BOOT_PML4 + 8 * 300)).testBit X86_PDPT_P_BIT = false) ∧
      (1 ≤ 300 → load64 m' (BOOT_PDPTE + 8 * 300) = 0 ∧
        (load64 m' (BOOT_PDPTE + 8 * 300)).testBit X86_PDPT_P_BIT = false) ∧
      (256 ≤ 300 → load64 m' (BOOT_PDE + 8 * 300) = 0 ∧
        (load64 m' (BOOT_PDE + 8 * 300)).testBit X86_PDPT_P_BIT = false ∧
        0x20000000 ≤ 300 * GUEST_PAGE_SIZE) :=
  ⟨by decide, C2_unmapped_entries_zero 14 (fun _ => 0xFF) 300 (by decide)⟩

/-! ## `setup_guest_mem`: the boot GDT -/

theorem body_gdt (m : Mem) :
    load64 (setup_guest_mem_body m) (BOOT_GDT + 8 * BOOT_GDT_NULL) = GDT_ENTRY 0 0 0 ∧
    load64 (setup_guest_mem_body m) (BOOT_GDT + 8 * BOOT_GDT_CODE) = GDT_ENTRY 0xA09B 0 0xFFFFF ∧
    load64 (setup_guest_mem_body m) (BOOT_GDT + 8 * BOOT_GDT_DATA)
      = GDT_ENTRY 0xC093 0 0xFFFFF := by
  simp only [setup_guest_mem_body, BOOT_GDT, BOOT_GDT_NULL, BOOT_GDT_CODE, BOOT_GDT_DATA]
  refine ⟨?_, ?_, ?_⟩
  · rw [load64_store64_frame _ _ _ _ (by omega), load64_store64_frame _ _ _ _ (by omega),
      load64_store64 _ _ _ (by decide)]
  · rw [load64_store64_frame _ _ _ _ (by omega), load64_store64 _ _ _ (by decide)]
  · rw [load64_store64 _ _ _ (by decide)]

/-- Claim C3.  After `setup_guest_mem` the three 8-byte descriptors at guest
offset `0x1000` are: the null descriptor, all zero; the code descriptor
`GDT_ENTRY(0xA09B, 0, 0xFFFFF) = 0x00AF9B000000FFFF`, which decodes to base 0,
limit `0xFFFFF` with G set (4GB), present, L set and an executable type (type
bit 3); the data descriptor `GDT_ENTRY(0xC093, 0, 0xFFFFF) = 0x00CF93000000FFFF`,
which decodes to base 0, limit `0xFFFFF` with G set, present and a writable
data type (type bit 3 clear, bit 1 set). -/
theorem C3_boot_gdt_descriptors (EFAULT : Int) (m : Mem) :
    ∃ m', setup_guest_mem EFAULT (some m) = (0, some m') ∧
      load64 m' 0x1000 = 0 ∧
      load64 m' 0x1008 = GDT_ENTRY 0xA09B 0 0xFFFFF ∧
      load64 m' 0x1010 = GDT_ENTRY 0xC093 0 0xFFFFF ∧
      GDT_ENTRY 0xA09B 0 0xFFFFF = 0x00AF9B000000FFFF ∧
      GDT_ENTRY 0xC093 0 0xFFFFF = 0x00CF93000000FFFF ∧
      (GDT_GET_BASE (load64 m' 0x1008) = 0 ∧ GDT_GET_LIMIT (load64 m' 0x1008) = 0xFFFFF ∧
        GDT_GET_G (load64 m' 0x1008) = 1 ∧
        (GDT_GET_LIMIT (load64 m' 0x1008) + 1) * 4096 = 2 ^ 32 ∧
        GDT_GET_P (load64 m' 0x1008) = 1 ∧ GDT_GET_L (load64 m' 0x1008) = 1 ∧
        GDT_GET_S (load64 m' 0x1008) = 1 ∧ GDT_GET_TYPE (load64 m' 0x1008) = 0xB ∧
        (GDT_GET_TYPE (load64 m' 0x1008)).testBit 3 = true) ∧
      (GDT_GET_BASE (load64 m' 0x1010) = 0 ∧ GDT_GET_LIMIT (load64 m' 0x1010) = 0xFFFFF ∧
        GDT_GET_G (load64 m' 0x1010) = 1 ∧
        (GDT_GET_LIMIT (load64 m' 0x1010) + 1) * 4096 = 2 ^ 32 ∧
        GDT_GET_P (load64 m' 0x1010) = 1 ∧
        GDT_GET_S (load64 m' 0x1010) = 1 ∧ GDT_GET_TYPE (load64 m' 0x1010) = 0x3 ∧
        (GDT_GET_TYPE (load64 m' 0x1010)).testBit 3 = false ∧
        (GDT_GET_TYPE (load64 m' 0x1010)).testBit 1 = true) := by
  obtain ⟨g0, g1, g2⟩ := body_gdt m
  simp only [BOOT_GDT, BOOT_GDT_NULL, BOOT_GDT_CODE, BOOT_GDT_DATA] at g0 g1 g2
  norm_num at g0 g1 g2
  refine ⟨setup_guest_mem_body m, rfl, ?_, g1, g2, by decide, by decide, ?_, ?_⟩
  · rw [g0]; decide
  · rw [g1]; decide
  · rw [g2]; decide

/-! ## The CPUID filter -/

/-- The loop rewrites exactly the entries with index in `[i, nent)`. -/
theorem filter_cpuid_loop_getElem? (cap : Bool) (nent : Nat) (n : Nat) :
    ∀ (i : Nat) (es : List kvm_cpuid_entry2) (j : Nat), nent - i = n →
      (filter_cpuid_loop cap nent i es)[j]? =
        if i ≤ j ∧ j < nent then (es[j]?).map (filter_entry cap) else es[j]? := by
  induction n with
  | zero =>
    intro i es j h
    rw [filter_cpuid_loop, if_neg (by omega), if_neg (by omega)]
  | succ n ih =>
    intro i es j h
    rw [filter_cpuid_loop, if_pos (by omega), ih (i + 1) _ j (by omega)]
    by_cases hij : i = j
    · subst hij
      rw [if_neg (by omega), if_pos (by omega), List.getElem?_modify_eq]
      rfl
    · rw [List.getElem?_modify_ne _ _ hij]
      by_cases hc : i ≤ j ∧ j < nent
      · rw [if_pos hc, if_pos (by omega)]
      · rw [if_neg hc, if_neg (by omega)]

theorem filter_cpuid_loop_length (cap : Bool) (nent : Nat) (n : Nat) :
    ∀ (i : Nat) (es : List kvm_cpuid_entry2), nent - i = n →
      (filter_cpuid_loop cap nent i es).length = es.length := by
  induction n with
  | zero =>
    intro i es h
    rw [filter_cpuid_loop, if_neg (by omega)]
  | succ n ih =>
    intro i es h
    rw [filter_cpuid_loop, if_pos (by omega), ih (i + 1) _ (by omega), List.length_modify]

/-- Entry `i` of the filtered descriptor, for `i` below `nent`, is the host
entry rewritten by the `switch`. -/
theorem filter_cpuid_entry (cap : Bool) (d : kvm_cpuid2) (i : Nat) (e : kvm_cpuid_entry2)
    (hi : i < d.nent) (he : d.entries[i]? = some e) :
    (filter_cpuid cap d).entries[i]? = some (filter_entry cap e) := by
  simp only [filter_cpuid]
  rw [filter_cpuid_loop_getElem? cap d.nent (d.nent - 0) 0 d.entries i rfl,
    if_pos (by omega), he]
  rfl

theorem bit31_eq : (1 <<< 31) % 2 ^ 32 = 2 ^ 31 := by decide
theorem bit24_eq : (1 <<< 24) % 2 ^ 32 = 2 ^ 24 := by decide
theorem bit5_eq : (1 <<< 5) % 2 ^ 32 = 2 ^ 5 := by decide

theorem filter_entry_one (cap : Bool) (e : kvm_cpuid_entry2) (hf : e.function = 1) :
    filter_entry cap e =
      { e with ecx := if cap then e.ecx ||| 2 ^ 31 ||| 2 ^ 24 else e.ecx ||| 2 ^ 31,
               edx := e.edx ||| 2 ^ 5 } := by
  cases cap <;> simp [filter_entry, hf, bit31_eq, bit24_eq, bit5_eq]

/-- Claim C4, counterexample.  The host reports one function-1 entry with ECX
bit 24 already set and the capability probe fails (`KVM_CHECK_EXTENSION` gives
0): the first `kvm_create_vm` leaves `cap_tsc_deadline` false and caches a
descriptor whose function-1 entry still has ECX bit 24 set, so "set if and
only if the probe succeeded" fails. -/
theorem C4_tsc_deadline_iff_probe_counterexample :
    kvm_create_vm { cap_tsc_deadline := false, kvm_cpuid := none }
        { create_vm := 3, check_extension := 0, get_supported_cpuid := 0,
          host_cpuid := ⟨1, [{ function := 1, index := 0, flags := 0, eax := 0, ebx := 0,
                               ecx := 0x01000000, edx := 0 }]⟩ }
      = .ok (3, { cap_tsc_deadline := false,
                  kvm_cpuid := some ⟨1, [{ function := 1, index := 0, flags := 0, eax := 0,
                                           ebx := 0, ecx := 0x81000000, edx := 0x20 }]⟩ }) ∧
    filter_cpuid false ⟨1, [{ function := 1, index := 0, flags := 0, eax := 0, ebx := 0,
                              ecx := 0x01000000, edx := 0 }]⟩
      = ⟨1, [{ function := 1, index := 0, flags := 0, eax := 0, ebx := 0,
               ecx := 0x81000000, edx := 0x20 }]⟩ ∧
    Nat.testBit 0x81000000 24 = true ∧
    ¬ (Nat.testBit 0x81000000 24 = true ↔ false = true) := by
  have hf : filter_cpuid false ⟨1, [{ function := 1, index := 0, flags := 0, eax := 0,
                                      ebx := 0, ecx := 0x01000000, edx := 0 }]⟩
      = ⟨1, [{ function := 1, index := 0, flags := 0, eax := 0, ebx := 0,
               ecx := 0x81000000, edx := 0x20 }]⟩ := by
    simp [filter_cpuid, filter_cpuid_loop, filter_entry, List.modify, List.modifyTailIdx,
      List.modifyHead]
  refine ⟨?_, hf, by decide, by decide⟩
  simp [kvm_create_vm, kvm_ioctl, hf]

/-- Claim C4, amended.  For every host descriptor `d` and every value `cap` of
the capability flag, a function-1 entry of the filtered descriptor has ECX bit
24 set if and only if the probe succeeded or the host entry had the bit set
already; so it is set whenever the probe succeeded, and for a host entry with
the bit clear it is set exactly when the probe succeeded. -/
theorem C4_tsc_deadline_amended (cap : Bool) (d : kvm_cpuid2) (i : Nat)
    (e : kvm_cpuid_entry2) (hi : i < d.nent) (he : d.entries[i]? = some e)
    (hf : e.function = 1) :
    ∃ e', (filter_cpuid cap d).entries[i]? = some e' ∧ e'.function = 1 ∧
      (e'.ecx.testBit 24 = true ↔ (cap = true ∨ e.ecx.testBit 24 = true)) ∧
      (cap = true → e'.ecx.testBit 24 = true) ∧
      (e.ecx.testBit 24 = false → (e'.ecx.testBit 24 = true ↔ cap = true)) := by
  have h31 : Nat.testBit (2 ^ 31) 24 = false := by decide
  have h24 : Nat.testBit (2 ^ 24) 24 = true := by decide
  norm_num at h31 h24
  refine ⟨filter_entry cap e, filter_cpuid_entry cap d i e hi he, ?_, ?_, ?_, ?_⟩
  · rw [filter_entry_one cap e hf]; exact hf
  · rw [filter_entry_one cap e hf]
    cases cap <;> simp [Nat.testBit_or, h31, h24]
  · intro hc
    rw [filter_entry_one cap e hf]
    subst hc
    simp [Nat.testBit_or, h31, h24]
  · intro hb
    rw [filter_entry_one cap e hf]
    cases cap <;> simp [Nat.testBit_or, h31, h24, hb]

/-- Witness for C4 (amended): probe failed, host entry with ECX bit 24 clear. -/
theorem C4_tsc_deadline_amended_witness :
    (0 < 1 ∧ 1 = 1) ∧
    ∃ e', (filter_cpuid false ⟨1, [{ function := 1, index := 0, flags := 0, eax := 0,
                                     ebx := 0, ecx := 0x1, edx := 0 }]⟩).entries[0]? = some e' ∧
      e'.function = 1 ∧
      (e'.ecx.testBit 24 = true ↔ (false = true ∨ Nat.testBit 0x1 24 = true)) ∧
      (false = true → e'.ecx.testBit 24 = true) ∧
      (Nat.testBit 0x1 24 = false → (e'.ecx.testBit 24 = true ↔ false = true)) :=
  ⟨by decide, C4_tsc_deadline_amended false
    ⟨1, [{ function := 1, index := 0, flags := 0, eax := 0, ebx := 0, ecx := 0x1, edx := 0 }]⟩
    0 { function := 1, index := 0, flags := 0, eax := 0, ebx := 0, ecx := 0x1, edx := 0 }
    (by decide) rfl rfl⟩

theorem testBit_or_two_pow_self (x k : Nat) : (x ||| 2 ^ k).testBit k = true := by
  rw [Nat.testBit_or, Nat.testBit_two_pow_self, Bool.or_true]

theorem testBit_or_two_pow_of_ne (x k j : Nat) (h : j ≠ k) :
    (x ||| 2 ^ k).testBit j = x.testBit j := by
  rw [Nat.testBit_or, Nat.testBit_two_pow_of_ne (Ne.symm h), Bool.or_false]

/-- Claim C5.  For every host descriptor `d` and every value `cap` of the
capability flag, a function-1 entry of the filtered descriptor has ECX bit 31
(hypervisor present) and EDX bit 5 (MSR support) set; every ECX bit other than
31 and 24, every EDX bit other than 5, and the fields `function`, `index`,
`flags`, `eax` and `ebx` are as the host reported them. -/
theorem C5_function_one_bits (cap : Bool) (d : kvm_cpuid2) (i : Nat)
    (e : kvm_cpuid_entry2) (hi : i < d.nent) (he : d.entries[i]? = some e)
    (hf : e.function = 1) :
    ∃ e', (filter_cpuid cap d).entries[i]? = some e' ∧
      e'.ecx.testBit 31 = true ∧ e'.edx.testBit 5 = true ∧
      (∀ j, j ≠ 31 → j ≠ 24 → e'.ecx.testBit j = e.ecx.testBit j) ∧
      (∀ j, j ≠ 5 → e'.edx.testBit j = e.edx.testBit j) ∧
      e'.function = e.function ∧ e'.index = e.index ∧ e'.flags = e.flags ∧
      e'.eax = e.eax ∧ e'.ebx = e.ebx := by
  refine ⟨filter_entry cap e, filter_cpuid_entry cap d i e hi he, ?_⟩
  rw [filter_entry_one cap e hf]
  refine ⟨?_, testBit_or_two_pow_self _ _, ?_,
    fun j hj => testBit_or_two_pow_of_ne _ _ j hj, rfl, rfl, rfl, rfl, rfl⟩
  · cases cap
    · exact testBit_or_two_pow_self _ _
    · show (e.ecx ||| 2 ^ 31 ||| 2 ^ 24).testBit 31 = true
      rw [testBit_or_two_pow_of_ne _ _ _ (by decide)]
      exact testBit_or_two_pow_self _ _
  · intro j h31 h24
    cases cap
    · exact testBit_or_two_pow_of_ne _ _ j h31
    · show (e.ecx ||| 2 ^ 31 ||| 2 ^ 24).testBit j = e.ecx.testBit j
      rw [testBit_or_two_pow_of_ne _ _ j h24, testBit_or_two_pow_of_ne _ _ j h31]

/-- Witness for C5: probe succeeded, host entry `ecx = 0x5`, `edx = 0x3`. -/
theorem C5_function_one_bits_witness :
    (0 < 1 ∧ 1 = 1) ∧
    ∃ e', (filter_cpuid true ⟨1, [{ function := 1, index := 0, flags := 0, eax := 7,
                                    ebx := 9, ecx := 0x5, edx := 0x3 }]⟩).entries[0]? = some e' ∧
      e'.ecx.testBit 31 = true ∧ e'.edx.testBit 5 = true ∧
      (∀ j, j ≠ 31 → j ≠ 24 → e'.ecx.testBit j = Nat.testBit 0x5 j) ∧
      (∀ j, j ≠ 5 → e'.edx.testBit j = Nat.testBit 0x3 j) ∧
      e'.function = 1 ∧ e'.index = 0 ∧ e'.flags = 0 ∧ e'.eax = 7 ∧ e'.ebx = 9 :=
  ⟨by decide, C5_function_one_bits true
    ⟨1, [{ function := 1, index := 0, flags := 0, eax := 7, ebx := 9, ecx := 0x5, edx := 0x3 }]⟩
    0 { function := 1, index := 0, flags := 0, eax := 7, ebx := 9, ecx := 0x5, edx := 0x3 }
    (by decide) rfl rfl⟩

/-- Claim C6.  `filter_cpuid` keeps the number and the order of the entries
(`nent`, the buffer length and the function of every entry are unchanged); an
entry with function `0x0A` has `eax = 0` afterwards and its other fields
unchanged; an entry whose function is neither 1 nor `0x0A` is identical to the
host entry. -/
theorem C6_filter_frame (cap : Bool) (d : kvm_cpuid2) (i : Nat)
    (e : kvm_cpuid_entry2) (hi : i < d.nent) (he : d.entries[i]? = some e) :
    (filter_cpuid cap d).nent = d.nent ∧
    (filter_cpuid cap d).entries.length = d.entries.length ∧
    ∃ e', (filter_cpuid cap d).entries[i]? = some e' ∧
      e'.function = e.function ∧
      (e.function = 0x0A → e'.eax = 0 ∧ e' = { e with eax := 0 }) ∧
      (e.function ≠ 1 → e.function ≠ 0x0A → e' = e) := by
  refine ⟨rfl, filter_cpuid_loop_length cap d.nent (d.nent - 0) 0 d.entries rfl,
    filter_entry cap e, filter_cpuid_entry cap d i e hi he, ?_, ?_, ?_⟩
  · by_cases h1 : e.function = 1
    · rw [filter_entry_one cap e h1]
    · unfold filter_entry
      rw [if_neg h1]
      split <;> rfl
  · intro h
    simp [filter_entry, h, CPUID_FUNC_PERFMON]
  · intro h1 h2
    simp [filter_entry, h1, h2, CPUID_FUNC_PERFMON]

/-- Witness for C6: a performance-monitoring entry at index 0. -/
theorem C6_filter_frame_witness :
    (0 < 2 ∧ True) ∧
    (filter_cpuid true ⟨2, [{ function := 0x0A, index := 0, flags := 0, eax := 7,
                              ebx := 9, ecx := 0x5, edx := 0x3 },
                            { function := 7, index := 0, flags := 1, eax := 1,
                              ebx := 2, ecx := 3, edx := 4 }]⟩).nent = 2 ∧
    (filter_cpuid true ⟨2, [{ function := 0x0A, index := 0, flags := 0, eax := 7,
                              ebx := 9, ecx := 0x5, edx := 0x3 },
                            { function := 7, index := 0, flags := 1, eax := 1,
                              ebx := 2, ecx := 3, edx := 4 }]⟩).entries.length = 2 ∧
    ∃ e', (filter_cpuid true ⟨2, [{ function := 0x0A, index := 0, flags := 0, eax := 7,
                                    ebx := 9, ecx := 0x5, edx := 0x3 },
                                  { function := 7, index := 0, flags := 1, eax := 1,
                                    ebx := 2, ecx := 3, edx := 4 }]⟩).entries[0]? = some e' ∧
      e'.function = 0x0A ∧
      (0x0A = 0x0A → e'.eax = 0 ∧ e' = { function := 0x0A, index := 0, flags := 0, eax := 0,
                                         ebx := 9, ecx := 0x5, edx := 0x3 }) ∧
      (0x0A ≠ 1 → 0x0A ≠ 0x0A → e' = { function := 0x0A, index := 0, flags := 0, eax := 7,
                                       ebx := 9, ecx := 0x5, edx := 0x3 }) :=
  ⟨⟨by decide, trivial⟩, C6_filter_frame true
    ⟨2, [{ function := 0x0A, index := 0, flags := 0, eax := 7, ebx := 9, ecx := 0x5, edx := 0x3 },
         { function := 7, index := 0, flags := 1, eax := 1, ebx := 2, ecx := 3, edx := 4 }]⟩
    0 { function := 0x0A, index := 0, flags := 0, eax := 7, ebx := 9, ecx := 0x5, edx := 0x3 }
    (by decide) rfl⟩

/-! ## Guest memory registration -/

theorem gap_start_eq : KVM_32BIT_GAP_START = 0xD0000000 := by decide

theorem gap_size_eq : KVM_32BIT_GAP_SIZE = 0x30000000 := by decide

/-- The requests sent before the allocation: the identity map address only when
the `KVM_CAP_SYNC_MMU` check is positive, then the TSS address. -/
theorem kvm_init_vm_low (env : InitVmEnv) (guest_size base : Nat)
    (hsize : guest_size < KVM_32BIT_GAP_START)
    (hmmap : env.mmap = some base)
    (hcheck : env.check_extension ≠ -1)
    (hident : 0 < env.check_extension → env.set_identity_map_addr ≠ -1)
    (htss : env.set_tss_addr ≠ -1)
    (hreg : env.set_user_memory_region_0 ≠ -1) :
    kvm_init_vm env guest_size = .ok (base,
      (if 0 < env.check_extension then
        [Request.set_identity_map_addr 0xfeffc000, Request.set_tss_addr 0xfeffd000]
       else [Request.set_tss_addr 0xfffbd000]) ++
      [Request.mmap guest_size, Request.madvise base guest_size,
       Request.set_user_memory_region { slot := 0, flags := 0, guest_phys_addr := 0,
                                        memory_size := guest_size, userspace_addr := base }]) := by
  have hle : guest_size ≤ KVM_32BIT_GAP_START := by omega
  by_cases hc : 0 < env.check_extension
  · have hi := hident hc
    simp [kvm_init_vm, kvm_ioctl, hcheck, htss, hreg, hmmap, hsize, hle, hc, hi, GUEST_OFFSET]
  · simp [kvm_init_vm, kvm_ioctl, hcheck, htss, hreg, hmmap, hsize, hle, hc, GUEST_OFFSET]

/-- Claim C7.  For every guest size below `KVM_32BIT_GAP_START`, when `mmap`
returns the address `base` and no `ioctl` fails, `kvm_init_vm` returns `base`,
allocates one mapping, of exactly the requested size, and registers exactly
one memory region: slot 0, guest-physical address 0, the requested size, host
address `base`. -/
theorem C7_single_region (env : InitVmEnv) (guest_size base : Nat)
    (hsize : guest_size < KVM_32BIT_GAP_START)
    (hmmap : env.mmap = some base)
    (hcheck : env.check_extension ≠ -1)
    (hident : 0 < env.check_extension → env.set_identity_map_addr ≠ -1)
    (htss : env.set_tss_addr ≠ -1)
    (hreg : env.set_user_memory_region_0 ≠ -1) :
    ∃ log, kvm_init_vm env guest_size = .ok (base, log) ∧
      mapped log = [guest_size] ∧
      registered log = [{ slot := 0, flags := 0, guest_phys_addr := 0,
                          memory_size := guest_size, userspace_addr := base }] := by
  refine ⟨_, kvm_init_vm_low env guest_size base hsize hmmap hcheck hident htss hreg, ?_, ?_⟩
  · split <;> rfl
  · split <;> rfl

/-- Witness for C7: a 64MB guest, mapping at `0x7f0000000000`, every request
answered with 0 except the `KVM_CAP_SYNC_MMU` check, answered with 1. -/
theorem C7_single_region_witness :
    (0x4000000 < KVM_32BIT_GAP_START) ∧
    ∃ log, kvm_init_vm { check_extension := 1, set_identity_map_addr := 0, set_tss_addr := 0,
                         mmap := some 0x7f0000000000, set_user_memory_region_0 := 0,
                         set_user_memory_region_1 := 0 } 0x4000000
        = .ok (0x7f0000000000, log) ∧
      mapped log = [0x4000000] ∧
      registered log = [{ slot := 0, flags := 0, guest_phys_addr := 0,
                          memory_size := 0x4000000, userspace_addr := 0x7f0000000000 }] :=
  ⟨by decide, C7_single_region
    { check_extension := 1, set_identity_map_addr := 0, set_tss_addr := 0,
      mmap := some 0x7f0000000000, set_user_memory_region_0 := 0,
      set_user_memory_region_1 := 0 } 0x4000000 0x7f0000000000
    (by decide) rfl (by decide) (fun _ => by decide) (by decide) (by decide)⟩

/-- The requests `kvm_init_vm` sends for a guest size at or above the gap start. -/
theorem kvm_init_vm_high (env : InitVmEnv) (guest_size base : Nat)
    (hsize : KVM_32BIT_GAP_START ≤ guest_size)
    (hno : guest_size + KVM_32BIT_GAP_SIZE < 2 ^ 64)
    (hmmap : env.mmap = some base)
    (hcheck : env.check_extension ≠ -1)
    (hident : 0 < env.check_extension → env.set_identity_map_addr ≠ -1)
    (htss : env.set_tss_addr ≠ -1)
    (hreg0 : env.set_user_memory_region_0 ≠ -1)
    (hreg1 : env.set_user_memory_region_1 ≠ -1) :
    kvm_init_vm env guest_size = .ok (base,
      (if 0 < env.check_extension then
        [Request.set_identity_map_addr 0xfeffc000, Request.set_tss_addr 0xfeffd000]
       else [Request.set_tss_addr 0xfffbd000]) ++
      [Request.mmap (guest_size + KVM_32BIT_GAP_SIZE),
       Request.mprotect ((base + KVM_32BIT_GAP_START) % 2 ^ 64) KVM_32BIT_GAP_SIZE,
       Request.madvise base (guest_size + KVM_32BIT_GAP_SIZE),
       Request.set_user_memory_region
         { slot := 0, flags := 0, guest_phys_addr := 0,
           memory_size := KVM_32BIT_GAP_START, userspace_addr := base },
       Request.set_user_memory_region
         { slot := 1, flags := 0, guest_phys_addr := KVM_32BIT_GAP_START + KVM_32BIT_GAP_SIZE,
           memory_size := guest_size - KVM_32BIT_GAP_START,
           userspace_addr := (base + KVM_32BIT_GAP_START + KVM_32BIT_GAP_SIZE) % 2 ^ 64 }]) := by
  rw [gap_start_eq] at hsize
  rw [gap_size_eq] at hno
  have h1 : ¬ guest_size < 0xD0000000 := by omega
  have h2 : (guest_size + 0x30000000) % 2 ^ 64 = guest_size + 0x30000000 :=
    Nat.mod_eq_of_lt hno
  have h3 : ¬ guest_size + 0x30000000 ≤ 0xD0000000 := by omega
  have h4 : (guest_size + 0x30000000 + 2 ^ 64 - 0x30000000 + 2 ^ 64 - 0xD0000000 + 0) % 2 ^ 64
      = guest_size - 0xD0000000 := by omega
  by_cases hc : 0 < env.check_extension
  · have hi := hident hc
    simp only [kvm_init_vm, kvm_ioctl, if_neg hcheck, if_neg htss, if_neg hreg0, if_neg hreg1,
      if_neg hi, hmmap, gap_start_eq, gap_size_eq, GUEST_OFFSET, if_neg h1, h2, Nat.sub_zero,
      if_neg h3, h4, gt_iff_lt, if_pos hc]
    rfl
  · simp only [kvm_init_vm, kvm_ioctl, if_neg hcheck, if_neg htss, if_neg hreg0, if_neg hreg1,
      hmmap, gap_start_eq, gap_size_eq, GUEST_OFFSET, if_neg h1, h2, Nat.sub_zero,
      if_neg h3, h4, gt_iff_lt, if_neg hc]
    rfl

/-- Claim C8.  For every guest size at or above `KVM_32BIT_GAP_START` with
`guest_size + KVM_32BIT_GAP_SIZE` below `2 ^ 64`, when `mmap` returns `base` and
no `ioctl` fails, `kvm_init_vm` registers exactly two memory regions, with the
distinct slots 0 and 1: the first at guest-physical 0 of size
`KVM_32BIT_GAP_START` and host address `base`, the second at guest-physical
`KVM_32BIT_GAP_START + KVM_32BIT_GAP_SIZE` with host address
`base + KVM_32BIT_GAP_START + KVM_32BIT_GAP_SIZE` (as a `uint64_t`; the plain
sum when the mapping lies below `2 ^ 64`); the two sizes sum to the requested
size and no guest-physical address of the gap lies inside either region. -/
theorem C8_split_regions (env : InitVmEnv) (guest_size base : Nat)
    (hsize : KVM_32BIT_GAP_START ≤ guest_size)
    (hno : guest_size + KVM_32BIT_GAP_SIZE < 2 ^ 64)
    (hmmap : env.mmap = some base)
    (hcheck : env.check_extension ≠ -1)
    (hident : 0 < env.check_extension → env.set_identity_map_addr ≠ -1)
    (htss : env.set_tss_addr ≠ -1)
    (hreg0 : env.set_user_memory_region_0 ≠ -1)
    (hreg1 : env.set_user_memory_region_1 ≠ -1) :
    ∃ log r0 r1, kvm_init_vm env guest_size = .ok (base, log) ∧
      mapped log = [guest_size + KVM_32BIT_GAP_SIZE] ∧
      registered log = [r0, r1] ∧
      r0.slot = 0 ∧ r1.slot = 1 ∧ r0.slot ≠ r1.slot ∧
      r0.guest_phys_addr = 0 ∧ r0.memory_size = KVM_32BIT_GAP_START ∧
      r0.userspace_addr = base ∧
      r1.guest_phys_addr = KVM_32BIT_GAP_START + KVM_32BIT_GAP_SIZE ∧
      r1.userspace_addr = (base + KVM_32BIT_GAP_START + KVM_32BIT_GAP_SIZE) % 2 ^ 64 ∧
      (base + (guest_size + KVM_32BIT_GAP_SIZE) < 2 ^ 64 →
        r1.userspace_addr = base + KVM_32BIT_GAP_START + KVM_32BIT_GAP_SIZE) ∧
      r0.memory_size + r1.memory_size = guest_size ∧
      ∀ a, KVM_32BIT_GAP_START ≤ a → a < KVM_32BIT_GAP_START + KVM_32BIT_GAP_SIZE →
        ¬ in_region r0 a ∧ ¬ in_region r1 a := by
  refine ⟨_,
    { slot := 0, flags := 0, guest_phys_addr := 0,
      memory_size := KVM_32BIT_GAP_START, userspace_addr := base },
    { slot := 1, flags := 0, guest_phys_addr := KVM_32BIT_GAP_START + KVM_32BIT_GAP_SIZE,
      memory_size := guest_size - KVM_32BIT_GAP_START,
      userspace_addr := (base + KVM_32BIT_GAP_START + KVM_32BIT_GAP_SIZE) % 2 ^ 64 },
    kvm_init_vm_high env guest_size base hsize hno hmmap hcheck hident htss hreg0 hreg1,
    ?_, ?_, rfl, rfl, Nat.zero_ne_one, rfl, rfl, rfl, rfl, rfl, ?_, ?_, ?_⟩
  · split <;> rfl
  · split <;> rfl
  · intro hfit
    apply Nat.mod_eq_of_lt
    simp only [gap_start_eq, gap_size_eq] at hsize hfit ⊢
    omega
  · show KVM_32BIT_GAP_START + (guest_size - KVM_32BIT_GAP_START) = guest_size
    omega
  · intro a h1 h2
    simp only [in_region]
    omega

/-- Witness for C8: a 4GB guest, mapping at `0x7f0000000000`, every request
answered with 0. -/
theorem C8_split_regions_witness :
    (KVM_32BIT_GAP_START ≤ 0x100000000 ∧ 0x100000000 + KVM_32BIT_GAP_SIZE < 2 ^ 64) ∧
    ∃ log r0 r1,
      kvm_init_vm { check_extension := 0, set_identity_map_addr := 0, set_tss_addr := 0,
                    mmap := some 0x7f0000000000, set_user_memory_region_0 := 0,
                    set_user_memory_region_1 := 0 } 0x100000000
        = .ok (0x7f0000000000, log) ∧
      mapped log = [0x100000000 + KVM_32BIT_GAP_SIZE] ∧
      registered log = [r0, r1] ∧
      r0.slot = 0 ∧ r1.slot = 1 ∧ r0.slot ≠ r1.slot ∧
      r0.guest_phys_addr = 0 ∧ r0.memory_size = KVM_32BIT_GAP_START ∧
      r0.userspace_addr = 0x7f0000000000 ∧
      r1.guest_phys_addr = KVM_32BIT_GAP_START + KVM_32BIT_GAP_SIZE ∧
      r1.userspace_addr
        = (0x7f0000000000 + KVM_32BIT_GAP_START + KVM_32BIT_GAP_SIZE) % 2 ^ 64 ∧
      (0x7f0000000000 + (0x100000000 + KVM_32BIT_GAP_SIZE) < 2 ^ 64 →
        r1.userspace_addr = 0x7f0000000000 + KVM_32BIT_GAP_START + KVM_32BIT_GAP_SIZE) ∧
      r0.memory_size + r1.memory_size = 0x100000000 ∧
      ∀ a, KVM_32BIT_GAP_START ≤ a → a < KVM_32BIT_GAP_START + KVM_32BIT_GAP_SIZE →
        ¬ in_region r0 a ∧ ¬ in_region r1 a :=
  ⟨by decide, C8_split_regions
    { check_extension := 0, set_identity_map_addr := 0, set_tss_addr := 0,
      mmap := some 0x7f0000000000, set_user_memory_region_0 := 0,
      set_user_memory_region_1 := 0 } 0x100000000 0x7f0000000000
    (by decide) (by decide) rfl (by decide) (fun _ => by decide) (by decide) (by decide)
    (by decide)⟩

/-! ## Layout constants -/

/-- Claim C9, counterexample.  The gap start the code uses, `KVM_32BIT_GAP_START`,
that is `(1ULL << 32) - (768 << 20)`, is `0xD0000000`, not `0xC0000000`. -/
theorem C9_gap_start_counterexample :
    KVM_32BIT_GAP_START = 0xD0000000 ∧ KVM_32BIT_GAP_START ≠ 0xC0000000 := by
  decide

/-- Claim C9, amended.  The legacy gap starts at guest-physical `0xD0000000`
(`KVM_32BIT_GAP_START`, the 4GB mark less the gap size), is `0x30000000` bytes
long (`KVM_32BIT_GAP_SIZE`) and so ends at `2 ^ 32`; the GDT is at `0x1000`, the
PML4 at `0x10000`, the PDPT at `0x11000`, the PDE table at `0x12000` and the
default APIC base is `0xFEE00000`. -/
theorem C9_layout_constants_amended :
    KVM_32BIT_GAP_START = 0xD0000000 ∧ KVM_32BIT_GAP_SIZE = 0x30000000 ∧
    KVM_32BIT_GAP_START + KVM_32BIT_GAP_SIZE = 2 ^ 32 ∧
    KVM_32BIT_GAP_START = KVM_32BIT_MAX_MEM_SIZE - KVM_32BIT_GAP_SIZE ∧
    BOOT_GDT = 0x1000 ∧ BOOT_PML4 = 0x10000 ∧ BOOT_PDPTE = 0x11000 ∧ BOOT_PDE = 0x12000 ∧
    APIC_DEFAULT_BASE = 0xFEE00000 := by
  decide

/-! ## The run loop -/

/-- A `KVM_RUN` request that gives -1 ends the process inside the wrapper, after
that one request, whatever `errno` is and whatever would have followed. -/
theorem kvm_run_first_failure (EINTR EFAULT : Int) (get_regs : IoctlResult) (rip : Nat)
    (errno : Int) (rest : List IoctlResult) :
    kvm_run EINTR EFAULT get_regs rip ({ ret := -1, errno := errno } :: rest)
      = RunOutcome.exited (Fatal.ioctl_failed "KVM_RUN") 1 := by
  simp [kvm_run, kvm_run_retry, kvm_ioctl]

/-- Claim C10, the code at the failing input.  With `EINTR = 4`, one benign
interruption (`-1` with `errno = EINTR`) followed by a successful `KVM_RUN`
(result 0): `kvm_run` ends the process in the wrapper after a single request;
it neither reissues the request nor returns the successful result. -/
theorem C10_interrupted_run_exits :
    kvm_run 4 14 { ret := 0, errno := 0 } 0
        [{ ret := -1, errno := 4 }, { ret := 0, errno := 0 }]
      = RunOutcome.exited (Fatal.ioctl_failed "KVM_RUN") 1 ∧
    kvm_run 4 14 { ret := 0, errno := 0 } 0
        [{ ret := -1, errno := 4 }, { ret := 0, errno := 0 }]
      ≠ RunOutcome.returned 0 2 := by
  rw [kvm_run_first_failure]
  exact ⟨rfl, by decide⟩

/-- Claim C11, the code at the failing input.  With `EFAULT = 14`, a `KVM_RUN`
request that fails with a translation fault (`-1` with `errno = EFAULT`) on a
vCPU whose `rip` is `0x200000`: `kvm_run` does not return, but it ends the
process in the wrapper, before the register read-back, with the wrapper's
message; the diagnostic of the `EFAULT` branch, which carries `rip`, is not
produced. -/
theorem C11_translation_fault_exits_in_wrapper :
    kvm_run 4 14 { ret := 0, errno := 0 } 0x200000 [{ ret := -1, errno := 14 }]
      = RunOutcome.exited (Fatal.ioctl_failed "KVM_RUN") 1 ∧
    kvm_run 4 14 { ret := 0, errno := 0 } 0x200000 [{ ret := -1, errno := 14 }]
      ≠ RunOutcome.exited (Fatal.translation_fault 0x200000) 1 := by
  rw [kvm_run_first_failure]
  exact ⟨rfl, by decide⟩

/-- What `kvm_run` does, for every sequence of results: it issues one request;
a result of -1 ends the process in the wrapper and any other result is
returned.  Nothing depends on `errno`. -/
theorem kvm_run_eq (EINTR EFAULT : Int) (get_regs : IoctlResult) (rip : Nat)
    (results : List IoctlResult) :
    kvm_run EINTR EFAULT get_regs rip results =
      match results with
      | [] => RunOutcome.waiting 0
      | r :: _ =>
        if r.ret = -1 then RunOutcome.exited (Fatal.ioctl_failed "KVM_RUN") 1
        else RunOutcome.returned r.ret 1 := by
  cases results with
  | nil => rfl
  | cons r rest =>
    by_cases h : r.ret = -1
    · simp [kvm_run, kvm_run_retry, kvm_ioctl, h]
    · simp [kvm_run, kvm_run_retry, kvm_ioctl, h]

/-- Claim C18.  A control request issued through `kvm_ioctl` that gives -1 ends
the process inside the wrapper, whatever `errno` is.  Consequently `kvm_run`
never returns -1, and its `errno` dispatch is unreachable: for every sequence
of results it never ends with the translation-fault diagnostic nor with the
message of the default branch, it issues a single request (no retry), ending
in the wrapper on -1 and returning any other result, and its outcome is the
same whatever `errno`, `EINTR`, `EFAULT` and the register read-back are. -/
theorem C18_wrapper_preempts_dispatch (EINTR EFAULT : Int) (get_regs : IoctlResult)
    (rip : Nat) (results : List IoctlResult) (cmd : String) (errno : Int) :
    (kvm_ioctl cmd (IoctlResult.mk (-1) errno).ret = .error (Fatal.ioctl_failed cmd)) ∧
    (∀ n, kvm_run EINTR EFAULT get_regs rip results ≠ RunOutcome.returned (-1) n) ∧
    (∀ n rip', kvm_run EINTR EFAULT get_regs rip results
      ≠ RunOutcome.exited (Fatal.translation_fault rip') n) ∧
    (∀ n, kvm_run EINTR EFAULT get_regs rip results ≠ RunOutcome.exited Fatal.run_failed n) ∧
    (kvm_run EINTR EFAULT get_regs rip results =
      match results with
      | [] => RunOutcome.waiting 0
      | r :: _ =>
        if r.ret = -1 then RunOutcome.exited (Fatal.ioctl_failed "KVM_RUN") 1
        else RunOutcome.returned r.ret 1) ∧
    (∀ EINTR' EFAULT' get_regs' rip' errnos,
      errnos.length = results.length →
      kvm_run EINTR' EFAULT' get_regs' rip'
          (List.zipWith (fun (x : IoctlResult) e => IoctlResult.mk x.ret e) results errnos)
        = kvm_run EINTR EFAULT get_regs rip results) := by
  refine ⟨rfl, ?_, ?_, ?_, kvm_run_eq EINTR EFAULT get_regs rip results, ?_⟩
  · intro n
    rw [kvm_run_eq]
    cases results with
    | nil => simp
    | cons x rest =>
      by_cases h : x.ret = -1
      · simp [h]
      · simp only [if_neg h]
        intro hc
        injection hc with h1 _
        exact h h1
  · intro n rip'
    rw [kvm_run_eq]
    cases results with
    | nil => simp
    | cons x rest => by_cases h : x.ret = -1 <;> simp [h]
  · intro n
    rw [kvm_run_eq]
    cases results with
    | nil => simp
    | cons x rest => by_cases h : x.ret = -1 <;> simp [h]
  · intro EINTR' EFAULT' get_regs' rip' errnos hlen
    rw [kvm_run_eq, kvm_run_eq]
    cases results with
    | nil => cases errnos <;> simp
    | cons x rest =>
      cases errnos with
      | nil => simp at hlen
      | cons e es => simp

/-! ## vCPU bring-up -/

/-- The boot vCPU: the static is read from the vCPU, set up and written back. -/
theorem setup_system_boot (u : Unspecified) (sregs : kvm_sregs) (env : SetupSystemEnv)
    (hget : env.get_sregs ≠ -1) (hset : env.set_sregs ≠ -1) :
    setup_system u sregs env 0 =
      .ok (setup_system_64bit (setup_system_gdt u env.vcpu_sregs),
        [VcpuRequest.get_sregs,
         VcpuRequest.set_sregs (setup_system_64bit (setup_system_gdt u env.vcpu_sregs))]) := by
  simp [setup_system, kvm_ioctl, hget, hset]

/-- Any other vCPU: the static is written as it is. -/
theorem setup_system_secondary (u : Unspecified) (sregs : kvm_sregs) (env : SetupSystemEnv)
    (id : Nat) (hid : id ≠ 0) (hset : env.set_sregs ≠ -1) :
    setup_system u sregs env id = .ok (sregs, [VcpuRequest.set_sregs sregs]) := by
  simp [setup_system, kvm_ioctl, hid, hset]

/-- Claim C12.  `setup_system` with id 0 and then with id 1, when no request
fails: both calls send `KVM_SET_SREGS`, and the state written to vCPU 1 is the
very state written to vCPU 0, equal in every field (CR0, CR3, CR4, EFER, GDT,
every segment register), whatever state vCPU 1 itself held and whatever the
static held before the first call. -/
theorem C12_same_sregs_on_both (u0 u1 : Unspecified) (sregs : kvm_sregs)
    (env0 env1 : SetupSystemEnv)
    (hget0 : env0.get_sregs ≠ -1) (hset0 : env0.set_sregs ≠ -1)
    (hset1 : env1.set_sregs ≠ -1) :
    ∃ w0 w1 static0,
      setup_system u0 sregs env0 0
        = .ok (static0, [VcpuRequest.get_sregs, VcpuRequest.set_sregs w0]) ∧
      setup_system u1 static0 env1 1 = .ok (static0, [VcpuRequest.set_sregs w1]) ∧
      w1 = w0 ∧
      w1.cr0 = w0.cr0 ∧ w1.cr3 = w0.cr3 ∧ w1.cr4 = w0.cr4 ∧ w1.efer = w0.efer ∧
      w1.gdt = w0.gdt ∧ w1.cs = w0.cs ∧ w1.ds = w0.ds ∧ w1.es = w0.es ∧ w1.fs = w0.fs ∧
      w1.gs = w0.gs ∧ w1.ss = w0.ss := by
  refine ⟨_, _, _, setup_system_boot u0 sregs env0 hget0 hset0,
    setup_system_secondary u1 _ env1 1 (by decide) hset1,
    rfl, rfl, rfl, rfl, rfl, rfl, rfl, rfl, rfl, rfl, rfl, rfl⟩

/-- Witness for C12: vCPU 0 holds the all-zero state, vCPU 1 a state with
`cr0 = 0x60000010`; every request is answered with 0. -/
theorem C12_same_sregs_on_both_witness :
    ((0 : Int) ≠ -1) ∧ ∃ w0 w1 static0,
      setup_system ⟨zero_segment, zero_segment, fun _ _ => 0⟩ initial_sregs
          ⟨0, initial_sregs, 0⟩ 0
        = .ok (static0, [VcpuRequest.get_sregs, VcpuRequest.set_sregs w0]) ∧
      setup_system ⟨zero_segment, zero_segment, fun _ _ => 0⟩ static0
          ⟨0, { initial_sregs with cr0 := 0x60000010 }, 0⟩ 1
        = .ok (static0, [VcpuRequest.set_sregs w1]) ∧
      w1 = w0 ∧
      w1.cr0 = w0.cr0 ∧ w1.cr3 = w0.cr3 ∧ w1.cr4 = w0.cr4 ∧ w1.efer = w0.efer ∧
      w1.gdt = w0.gdt ∧ w1.cs = w0.cs ∧ w1.ds = w0.ds ∧ w1.es = w0.es ∧ w1.fs = w0.fs ∧
      w1.gs = w0.gs ∧ w1.ss = w0.ss :=
  ⟨by decide, C12_same_sregs_on_both ⟨zero_segment, zero_segment, fun _ _ => 0⟩
    ⟨zero_segment, zero_segment, fun _ _ => 0⟩ initial_sregs ⟨0, initial_sregs, 0⟩
    ⟨0, { initial_sregs with cr0 := 0x60000010 }, 0⟩ (by decide) (by decide) (by decide)⟩

/-- Claim C13.  For every vCPU index `cpuid` and every entry point `e`, when no
request fails, `kvm_init_vcpu` returns 0 and its last request, the only
`KVM_SET_REGS`, writes general-purpose registers with `rip = e`,
`rsp = 0x1FF000` (`0x200000 - 0x1000`), `rflags = 0x2` and every other
register 0. -/
theorem C13_initial_registers (u : Unspecified) (g : Globals) (sregs : kvm_sregs)
    (env : InitVcpuEnv) (cpuid : Int) (e : Nat)
    (hcpuid : env.set_cpuid2 ≠ -1) (hmp : env.set_mp_state ≠ -1) (hmsrs : env.set_msrs ≠ -1)
    (hget : (cpuid % 2 ^ 32).toNat = 0 → env.system.get_sregs ≠ -1)
    (hset : env.system.set_sregs ≠ -1) (hregs : env.set_regs ≠ -1) :
    ∃ static1 log regs,
      kvm_init_vcpu u g sregs env cpuid e
        = .ok (0, static1, log ++ [VcpuRequest.set_regs regs]) ∧
      (∀ x, VcpuRequest.set_regs x ∉ log) ∧
      regs.rip = e ∧ regs.rsp = 0x1FF000 ∧ regs.rsp = 0x200000 - 0x1000 ∧
      regs.rflags = 0x2 ∧
      regs.rax = 0 ∧ regs.rbx = 0 ∧ regs.rcx = 0 ∧ regs.rdx = 0 ∧ regs.rsi = 0 ∧
      regs.rdi = 0 ∧ regs.rbp = 0 ∧ regs.r8 = 0 ∧ regs.r9 = 0 ∧ regs.r10 = 0 ∧
      regs.r11 = 0 ∧ regs.r12 = 0 ∧ regs.r13 = 0 ∧ regs.r14 = 0 ∧ regs.r15 = 0 := by
  by_cases hid : (cpuid % 2 ^ 32).toNat = 0
  · refine ⟨setup_system_64bit (setup_system_gdt u env.system.vcpu_sregs),
      [VcpuRequest.set_cpuid2 g.kvm_cpuid, VcpuRequest.set_mp_state_runnable,
       VcpuRequest.set_msrs 1 [(MSR_IA32_MISC_ENABLE, 1)], VcpuRequest.get_sregs,
       VcpuRequest.set_sregs (setup_system_64bit (setup_system_gdt u env.system.vcpu_sregs))],
      { rip := e, rsp := 0x200000 - 0x1000, rflags := 0x2,
        rax := 0, rbx := 0, rcx := 0, rdx := 0, rsi := 0, rdi := 0, rbp := 0,
        r8 := 0, r9 := 0, r10 := 0, r11 := 0, r12 := 0, r13 := 0, r14 := 0, r15 := 0 },
      ?_, ?_, rfl, rfl, rfl, rfl, rfl, rfl, rfl, rfl, rfl, rfl, rfl, rfl, rfl, rfl,
      rfl, rfl, rfl, rfl, rfl⟩
    · simp only [kvm_init_vcpu, kvm_ioctl, if_neg hcpuid, if_neg hmp, if_neg hmsrs,
        if_neg hregs, hid, setup_system_boot u sregs env.system (hget hid) hset]
      rfl
    · intro x hx
      simp at hx
  · refine ⟨sregs,
      [VcpuRequest.set_cpuid2 g.kvm_cpuid, VcpuRequest.set_mp_state_runnable,
       VcpuRequest.set_msrs 1 [(MSR_IA32_MISC_ENABLE, 1)], VcpuRequest.set_sregs sregs],
      { rip := e, rsp := 0x200000 - 0x1000, rflags := 0x2,
        rax := 0, rbx := 0, rcx := 0, rdx := 0, rsi := 0, rdi := 0, rbp := 0,
        r8 := 0, r9 := 0, r10 := 0, r11 := 0, r12 := 0, r13 := 0, r14 := 0, r15 := 0 },
      ?_, ?_, rfl, rfl, rfl, rfl, rfl, rfl, rfl, rfl, rfl, rfl, rfl, rfl, rfl, rfl,
      rfl, rfl, rfl, rfl, rfl⟩
    · simp only [kvm_init_vcpu, kvm_ioctl, if_neg hcpuid, if_neg hmp, if_neg hmsrs,
        if_neg hregs, setup_system_secondary u sregs env.system _ hid hset]
      rfl
    · intro x hx
      simp at hx

/-- Witness for C13: the boot vCPU with entry point `0x200000`, every request
answered with 0: `rip = 0x200000`, `rsp = 0x1FF000`, `rflags = 0x2`. -/
theorem C13_initial_registers_witness :
    ((0 : Int) ≠ -1) ∧
    ∃ static1 log regs,
      kvm_init_vcpu ⟨zero_segment, zero_segment, fun _ _ => 0⟩ initial_globals initial_sregs
          ⟨0, 0, 0, ⟨0, initial_sregs, 0⟩, 0⟩ 0 0x200000
        = .ok (0, static1, log ++ [VcpuRequest.set_regs regs]) ∧
      (∀ x, VcpuRequest.set_regs x ∉ log) ∧
      regs.rip = 0x200000 ∧ regs.rsp = 0x1FF000 ∧ regs.rsp = 0x200000 - 0x1000 ∧
      regs.rflags = 0x2 ∧
      regs.rax = 0 ∧ regs.rbx = 0 ∧ regs.rcx = 0 ∧ regs.rdx = 0 ∧ regs.rsi = 0 ∧
      regs.rdi = 0 ∧ regs.rbp = 0 ∧ regs.r8 = 0 ∧ regs.r9 = 0 ∧ regs.r10 = 0 ∧
      regs.r11 = 0 ∧ regs.r12 = 0 ∧ regs.r13 = 0 ∧ regs.r14 = 0 ∧ regs.r15 = 0 :=
  ⟨by decide, C13_initial_registers ⟨zero_segment, zero_segment, fun _ _ => 0⟩
    initial_globals initial_sregs ⟨0, 0, 0, ⟨0, initial_sregs, 0⟩, 0⟩ 0 0x200000
    (by decide) (by decide) (by decide) (fun _ => by decide) (by decide) (by decide)⟩

theorem cr0_bits_eq : X86_CR0_PE ||| X86_CR0_PG = 2 ^ 0 ||| 2 ^ 31 := by decide

theorem cr4_bits_eq : X86_CR4_PAE = 2 ^ 5 := by decide

theorem efer_bits_eq : EFER_LME ||| EFER_LMA = 2 ^ 8 ||| 2 ^ 10 := by decide

/-- Bits of a value after two bits are ORed in. -/
theorem testBit_or_two_bits (x a b : Nat) :
    (x ||| (2 ^ a ||| 2 ^ b)).testBit a = true ∧ (x ||| (2 ^ a ||| 2 ^ b)).testBit b = true ∧
    ∀ j, j ≠ a → j ≠ b → (x ||| (2 ^ a ||| 2 ^ b)).testBit j = x.testBit j := by
  rw [← Nat.or_assoc]
  refine ⟨?_, testBit_or_two_pow_self _ _, ?_⟩
  · by_cases h : a = b
    · subst h; exact testBit_or_two_pow_self _ _
    · rw [testBit_or_two_pow_of_ne _ _ _ h]; exact testBit_or_two_pow_self _ _
  · intro j ha hb
    rw [testBit_or_two_pow_of_ne _ _ _ hb, testBit_or_two_pow_of_ne _ _ _ ha]

/-- Claim C14.  For every system-register state `s` read from the boot vCPU
(`env.vcpu_sregs`), when neither request fails, the state `setup_system`
writes back has `cr3 = 0x10000` (the PML4 base), `cr0 = s.cr0` with bits 0 and
31 set, `cr4 = s.cr4` with bit 5 set, `efer = s.efer` with bits 8 and 10 set,
and no other bit of the three differs from `s`; the GDT base is `0x1000` with
limit 23 and the APIC base is `0xFEE00000`. -/
theorem C14_boot_control_registers (u : Unspecified) (sregs : kvm_sregs)
    (env : SetupSystemEnv) (hget : env.get_sregs ≠ -1) (hset : env.set_sregs ≠ -1) :
    ∃ w, setup_system u sregs env 0
        = .ok (w, [VcpuRequest.get_sregs, VcpuRequest.set_sregs w]) ∧
      w.cr3 = 0x10000 ∧ w.cr3 = BOOT_PML4 ∧
      (w.cr0.testBit 0 = true ∧ w.cr0.testBit 31 = true ∧
        ∀ j, j ≠ 0 → j ≠ 31 → w.cr0.testBit j = env.vcpu_sregs.cr0.testBit j) ∧
      (w.cr4.testBit 5 = true ∧
        ∀ j, j ≠ 5 → w.cr4.testBit j = env.vcpu_sregs.cr4.testBit j) ∧
      (w.efer.testBit 8 = true ∧ w.efer.testBit 10 = true ∧
        ∀ j, j ≠ 8 → j ≠ 10 → w.efer.testBit j = env.vcpu_sregs.efer.testBit j) ∧
      w.gdt.base = 0x1000 ∧ w.gdt.limit = 23 ∧ w.apic_base = 0xFEE00000 := by
  refine ⟨_, setup_system_boot u sregs env hget hset, rfl, rfl, ?_, ?_, ?_, rfl, rfl, rfl⟩
  · show (env.vcpu_sregs.cr0 ||| (X86_CR0_PE ||| X86_CR0_PG)).testBit 0 = true ∧
      (env.vcpu_sregs.cr0 ||| (X86_CR0_PE ||| X86_CR0_PG)).testBit 31 = true ∧
      ∀ j, j ≠ 0 → j ≠ 31 →
        (env.vcpu_sregs.cr0 ||| (X86_CR0_PE ||| X86_CR0_PG)).testBit j
          = env.vcpu_sregs.cr0.testBit j
    rw [cr0_bits_eq]
    exact testBit_or_two_bits _ 0 31
  · show (env.vcpu_sregs.cr4 ||| X86_CR4_PAE).testBit 5 = true ∧
      ∀ j, j ≠ 5 → (env.vcpu_sregs.cr4 ||| X86_CR4_PAE).testBit j
        = env.vcpu_sregs.cr4.testBit j
    rw [cr4_bits_eq]
    exact ⟨testBit_or_two_pow_self _ _, fun j hj => testBit_or_two_pow_of_ne _ _ j hj⟩
  · show (env.vcpu_sregs.efer ||| (EFER_LME ||| EFER_LMA)).testBit 8 = true ∧
      (env.vcpu_sregs.efer ||| (EFER_LME ||| EFER_LMA)).testBit 10 = true ∧
      ∀ j, j ≠ 8 → j ≠ 10 →
        (env.vcpu_sregs.efer ||| (EFER_LME ||| EFER_LMA)).testBit j
          = env.vcpu_sregs.efer.testBit j
    rw [efer_bits_eq]
    exact testBit_or_two_bits _ 8 10

/-- Witness for C14: the boot vCPU holds `cr0 = 0x60000010`, `cr4 = 0`,
`efer = 0`; both requests are answered with 0. -/
theorem C14_boot_control_registers_witness :
    ((0 : Int) ≠ -1) ∧
    ∃ w, setup_system ⟨zero_segment, zero_segment, fun _ _ => 0⟩ initial_sregs
          ⟨0, { initial_sregs with cr0 := 0x60000010 }, 0⟩ 0
        = .ok (w, [VcpuRequest.get_sregs, VcpuRequest.set_sregs w]) ∧
      w.cr3 = 0x10000 ∧ w.cr3 = BOOT_PML4 ∧
      (w.cr0.testBit 0 = true ∧ w.cr0.testBit 31 = true ∧
        ∀ j, j ≠ 0 → j ≠ 31 → w.cr0.testBit j = Nat.testBit 0x60000010 j) ∧
      (w.cr4.testBit 5 = true ∧
        ∀ j, j ≠ 5 → w.cr4.testBit j = Nat.testBit 0 j) ∧
      (w.efer.testBit 8 = true ∧ w.efer.testBit 10 = true ∧
        ∀ j, j ≠ 8 → j ≠ 10 → w.efer.testBit j = Nat.testBit 0 j) ∧
      w.gdt.base = 0x1000 ∧ w.gdt.limit = 23 ∧ w.apic_base = 0xFEE00000 :=
  ⟨by decide, C14_boot_control_registers ⟨zero_segment, zero_segment, fun _ _ => 0⟩
    initial_sregs ⟨0, { initial_sregs with cr0 := 0x60000010 }, 0⟩ (by decide) (by decide)⟩

/-- Claim C15, the code at the failing input.  For every system-register state
and whatever the parts C leaves open are, after `setup_system_gdt` the
selector of CS is `0xFFF8`, not `0x08`, and the selector of DS, ES, FS, GS and
SS is `0xFFF8`, not `0x10`: the calls bind the macro parameter `sel` to the
descriptor, so `sel * 8` is the descriptor times 8 cut to 16 bits; and the
remaining fields are decoded from the subscript `gdt_table[sel]` of an integer
constant, not from the descriptor.  With the arguments in the order the macro
declares (table, then index) the macro gives the values the claim lists. -/
theorem C15_selectors_from_descriptor (u : Unspecified) (sregs : kvm_sregs) :
    ((setup_system_gdt u sregs).cs.selector = 0xFFF8 ∧
      (setup_system_gdt u sregs).cs.selector ≠ 0x08) ∧
    ((setup_system_gdt u sregs).ds.selector = 0xFFF8 ∧
      (setup_system_gdt u sregs).ds.selector ≠ 0x10) ∧
    ((setup_system_gdt u sregs).es = (setup_system_gdt u sregs).ds ∧
      (setup_system_gdt u sregs).fs = (setup_system_gdt u sregs).ds ∧
      (setup_system_gdt u sregs).gs = (setup_system_gdt u sregs).ds ∧
      (setup_system_gdt u sregs).ss = (setup_system_gdt u sregs).ds) ∧
    ((setup_system_gdt u sregs).cs.base
        = GDT_GET_BASE (u.subscript BOOT_GDT_CODE (GDT_ENTRY 0xA09B 0 0xFFFFF) % 2 ^ 64) ∧
      (setup_system_gdt u sregs).cs.type
        = GDT_GET_TYPE (u.subscript BOOT_GDT_CODE (GDT_ENTRY 0xA09B 0 0xFFFFF) % 2 ^ 64)) ∧
    (GDT_TO_KVM_SEGMENT u.code_seg (fun _ => GDT_ENTRY 0xA09B 0 0xFFFFF) BOOT_GDT_CODE
        = { u.code_seg with base := 0, limit := 0xFFFFF, selector := 0x08, type := 0xB,
                            present := 1, dpl := 0, db := 0, s := 1, l := 1, g := 1,
                            avl := 0 } ∧
      GDT_TO_KVM_SEGMENT u.data_seg (fun _ => GDT_ENTRY 0xC093 0 0xFFFFF) BOOT_GDT_DATA
        = { u.data_seg with base := 0, limit := 0xFFFFF, selector := 0x10, type := 0x3,
                            present := 1, dpl := 0, db := 1, s := 1, l := 0, g := 1,
                            avl := 0 }) := by
  refine ⟨⟨?_, ?_⟩, ⟨?_, ?_⟩, ⟨rfl, rfl, rfl, rfl⟩, ⟨rfl, rfl⟩, ?_, ?_⟩
  · show (GDT_ENTRY 0xA09B 0 0xFFFFF * 8) % 2 ^ 64 % 2 ^ 16 = 0xFFF8
    decide
  · show (GDT_ENTRY 0xA09B 0 0xFFFFF * 8) % 2 ^ 64 % 2 ^ 16 ≠ 0x08
    decide
  · show (GDT_ENTRY 0xC093 0 0xFFFFF * 8) % 2 ^ 64 % 2 ^ 16 = 0xFFF8
    decide
  · show (GDT_ENTRY 0xC093 0 0xFFFFF * 8) % 2 ^ 64 % 2 ^ 16 ≠ 0x10
    decide
  · have h : GDT_ENTRY 0xA09B 0 0xFFFFF % 2 ^ 64 = 0x00AF9B000000FFFF := by decide
    simp only [GDT_TO_KVM_SEGMENT, h]
    congr 1
  · have h : GDT_ENTRY 0xC093 0 0xFFFFF % 2 ^ 64 = 0x00CF93000000FFFF := by decide
    simp only [GDT_TO_KVM_SEGMENT, h]
    congr 1

/-! ## The cached feature descriptor -/

theorem or_two_pow_idem (x k : Nat) : x ||| 2 ^ k ||| 2 ^ k = x ||| 2 ^ k := by
  rw [Nat.or_assoc, Nat.or_self]

theorem filter_entry_perfmon (cap : Bool) (e : kvm_cpuid_entry2) (h : e.function = 0x0A) :
    filter_entry cap e = { e with eax := 0 } := by
  simp [filter_entry, h, CPUID_FUNC_PERFMON]

theorem filter_entry_other (cap : Bool) (e : kvm_cpuid_entry2) (h1 : e.function ≠ 1)
    (h2 : e.function ≠ 0x0A) : filter_entry cap e = e := by
  simp [filter_entry, h1, h2, CPUID_FUNC_PERFMON]

/-- Rewriting an entry twice is rewriting it once. -/
theorem filter_entry_idem (cap : Bool) (e : kvm_cpuid_entry2) :
    filter_entry cap (filter_entry cap e) = filter_entry cap e := by
  by_cases h1 : e.function = 1
  · have h1' : (filter_entry cap e).function = 1 := by
      rw [filter_entry_one cap e h1]; exact h1
    rw [filter_entry_one cap (filter_entry cap e) h1', filter_entry_one cap e h1]
    cases cap
    · simp only [Bool.false_eq_true, if_false, or_two_pow_idem]
    · have h : e.ecx ||| 2 ^ 31 ||| 2 ^ 24 ||| 2 ^ 31 ||| 2 ^ 24
          = e.ecx ||| 2 ^ 31 ||| 2 ^ 24 := by
        apply Nat.eq_of_testBit_eq
        intro i
        simp only [Nat.testBit_or]
        cases e.ecx.testBit i <;> cases (2 ^ 31).testBit i <;> cases (2 ^ 24).testBit i <;> rfl
      simp only [if_true, or_two_pow_idem, h]
  · by_cases h2 : e.function = 0x0A
    · rw [filter_entry_perfmon cap e h2]
      exact filter_entry_perfmon cap { e with eax := 0 } h2
    · rw [filter_entry_other cap e h1 h2, filter_entry_other cap e h1 h2]

/-- Claim C16.  `filter_cpuid` is idempotent: for every descriptor `d` and every
fixed value `cap` of the capability flag, filtering the filtered descriptor
changes nothing. -/
theorem C16_filter_idempotent (cap : Bool) (d : kvm_cpuid2) :
    filter_cpuid cap (filter_cpuid cap d) = filter_cpuid cap d := by
  simp only [filter_cpuid]
  congr 1
  apply List.ext_getElem?
  intro j
  rw [filter_cpuid_loop_getElem? cap d.nent (d.nent - 0) 0 _ j rfl,
    filter_cpuid_loop_getElem? cap d.nent (d.nent - 0) 0 _ j rfl]
  by_cases hj : 0 ≤ j ∧ j < d.nent
  · rw [if_pos hj, if_pos hj]
    cases d.entries[j]? with
    | none => rfl
    | some e =>
      show some (filter_entry cap (filter_entry cap e)) = some (filter_entry cap e)
      rw [filter_entry_idem]
  · rw [if_neg hj, if_neg hj]

/-- The first call: the descriptor is queried, filtered and cached. -/
theorem kvm_create_vm_first (cap : Bool) (env : CreateVmEnv)
    (hvm : env.create_vm ≠ -1) (hcheck : env.check_extension ≠ -1)
    (hget : env.get_supported_cpuid ≠ -1) :
    kvm_create_vm { cap_tsc_deadline := cap, kvm_cpuid := none } env =
      .ok (env.create_vm,
        { cap_tsc_deadline := if env.check_extension ≤ 0 then false else true,
          kvm_cpuid := some (filter_cpuid (if env.check_extension ≤ 0 then false else true)
            env.host_cpuid) }) := by
  simp only [kvm_create_vm, kvm_ioctl, if_neg hvm, if_neg hcheck, if_neg hget]

/-- A call that finds a cached descriptor keeps it. -/
theorem kvm_create_vm_cached (cap : Bool) (d : kvm_cpuid2) (env : CreateVmEnv)
    (hvm : env.create_vm ≠ -1) (hcheck : env.check_extension ≠ -1) :
    kvm_create_vm { cap_tsc_deadline := cap, kvm_cpuid := some d } env =
      .ok (env.create_vm,
        { cap_tsc_deadline := if env.check_extension ≤ 0 then false else true,
          kvm_cpuid := some d }) := by
  simp only [kvm_create_vm, kvm_ioctl, if_neg hvm, if_neg hcheck]

theorem kvm_create_vm_calls_cached (envs : List CreateVmEnv) :
    ∀ (cap : Bool) (d : kvm_cpuid2),
      (∀ e ∈ envs, e.create_vm ≠ -1 ∧ e.check_extension ≠ -1) →
      ∃ g, kvm_create_vm_calls { cap_tsc_deadline := cap, kvm_cpuid := some d } envs = .ok g ∧
        g.kvm_cpuid = some d := by
  induction envs with
  | nil => intro cap d _; exact ⟨_, rfl, rfl⟩
  | cons env rest ih =>
    intro cap d h
    have he := h env (List.mem_cons_self _ _)
    have hrest : ∀ e ∈ rest, e.create_vm ≠ -1 ∧ e.check_extension ≠ -1 :=
      fun e hmem => h e (List.mem_cons_of_mem _ hmem)
    obtain ⟨g, hg, hd⟩ := ih (if env.check_extension ≤ 0 then false else true) d hrest
    refine ⟨g, ?_, hd⟩
    simp only [kvm_create_vm_calls, kvm_create_vm_cached cap d env he.1 he.2]
    exact hg

/-- Claim C17.  In a process that calls `kvm_create_vm` any number of times,
when no request fails, the first call queries and filters the feature
descriptor, and after every later call the cached descriptor is the one the
first call produced, whatever the host descriptor and the capability probe
are on the later calls. -/
theorem C17_descriptor_computed_once (env1 : CreateVmEnv) (envs : List CreateVmEnv)
    (hvm : env1.create_vm ≠ -1) (hcheck : env1.check_extension ≠ -1)
    (hget : env1.get_supported_cpuid ≠ -1)
    (hlater : ∀ e ∈ envs, e.create_vm ≠ -1 ∧ e.check_extension ≠ -1) :
    ∃ g1 g,
      kvm_create_vm initial_globals env1 = .ok (env1.create_vm, g1) ∧
      g1.kvm_cpuid = some (filter_cpuid (decide (0 < env1.check_extension)) env1.host_cpuid) ∧
      kvm_create_vm_calls initial_globals (env1 :: envs) = .ok g ∧
      g.kvm_cpuid = g1.kvm_cpuid := by
  have hcap : (if env1.check_extension ≤ 0 then false else true)
      = decide (0 < env1.check_extension) := by
    by_cases h : env1.check_extension ≤ 0
    · rw [if_pos h]; symm; exact decide_eq_false (by omega)
    · rw [if_neg h]; symm; exact decide_eq_true (by omega)
  have h1 := kvm_create_vm_first false env1 hvm hcheck hget
  obtain ⟨g, hg, hd⟩ := kvm_create_vm_calls_cached envs
    (if env1.check_extension ≤ 0 then false else true)
    (filter_cpuid (if env1.check_extension ≤ 0 then false else true) env1.host_cpuid) hlater
  refine ⟨_, g, h1, ?_, ?_, ?_⟩
  · rw [hcap]
  · show kvm_create_vm_calls { cap_tsc_deadline := false, kvm_cpuid := none } (env1 :: envs) = _
    simp only [kvm_create_vm_calls, h1]
    exact hg
  · exact hd

/-- Witness for C17: two calls; the probe fails on the first and succeeds on the
second, and the host reports a different descriptor on the second. -/
theorem C17_descriptor_computed_once_witness :
    ((3 : Int) ≠ -1) ∧
    ∃ g1 g,
      kvm_create_vm initial_globals
          ⟨3, 0, 0, ⟨1, [{ function := 1, index := 0, flags := 0, eax := 0, ebx := 0,
                           ecx := 0, edx := 0 }]⟩⟩ = .ok (3, g1) ∧
      g1.kvm_cpuid = some (filter_cpuid (decide ((0 : Int) < 0))
          ⟨1, [{ function := 1, index := 0, flags := 0, eax := 0, ebx := 0,
                 ecx := 0, edx := 0 }]⟩) ∧
      kvm_create_vm_calls initial_globals
          [⟨3, 0, 0, ⟨1, [{ function := 1, index := 0, flags := 0, eax := 0, ebx := 0,
                            ecx := 0, edx := 0 }]⟩⟩,
           ⟨4, 1, 0, ⟨1, [{ function := 0x0A, index := 0, flags := 0, eax := 7, ebx := 0,
                            ecx := 0, edx := 0 }]⟩⟩] = .ok g ∧
      g.kvm_cpuid = g1.kvm_cpuid :=
  ⟨by decide, C17_descriptor_computed_once
    ⟨3, 0, 0, ⟨1, [{ function := 1, index := 0, flags := 0, eax := 0, ebx := 0,
                     ecx := 0, edx := 0 }]⟩⟩
    [⟨4, 1, 0, ⟨1, [{ function := 0x0A, index := 0, flags := 0, eax := 7, ebx := 0,
                      ecx := 0, edx := 0 }]⟩⟩]
    (by decide) (by decide) (by decide)
    (by intro e he; simp at he; subst he; exact ⟨by decide, by decide⟩)⟩

/-! ## `setup_guest_mem`: what is written -/

/-- The loop is the sequence of stores to the `n` remaining entries, in order. -/
theorem pde_loop_eq_foldl (n : Nat) : ∀ (k pde : Nat) (m : Mem), k + n = 256 →
    pde_loop (k * GUEST_PAGE_SIZE) pde m =
      (List.range n).foldl
        (fun acc j => store64 acc (pde + 8 * j) ((k + j) * GUEST_PAGE_SIZE ||| 0x83)) m := by
  induction n with
  | zero =>
    intro k pde m hk
    rw [pde_loop_done]
    · rfl
    · simp only [GUEST_PAGE_SIZE, BOOT_CEILING]; omega
  | succ n ih =>
    intro k pde m hk
    rw [pde_loop_step k pde m (by omega), ih (k + 1) (pde + 8) _ (by omega),
      List.range_succ_eq_map, List.foldl_cons, List.foldl_map]
    have hf : (fun acc j => store64 acc (pde + 8 + 8 * j)
          ((k + 1 + j) * GUEST_PAGE_SIZE ||| 0x83))
        = (fun (acc : Mem) j => store64 acc (pde + 8 * (j + 1))
          ((k + (j + 1)) * GUEST_PAGE_SIZE ||| 0x83)) := by
      funext acc j
      have e1 : pde + 8 + 8 * j = pde + 8 * (j + 1) := by omega
      have e2 : k + 1 + j = k + (j + 1) := by omega
      rw [e1, e2]
    rw [hf]
    rfl

/-- A byte outside the GDT slots and outside the three tables is not changed. -/
theorem body_frame (m : Mem) (b : Nat) (hgdt : b < 0x1000 ∨ 0x1018 ≤ b)
    (htab : b < 0x10000 ∨ 0x13000 ≤ b) : setup_guest_mem_body m b = m b := by
  simp only [setup_guest_mem_body, BOOT_GDT, BOOT_GDT_NULL, BOOT_GDT_CODE, BOOT_GDT_DATA]
  rw [store64_frame _ _ _ _ (by omega), store64_frame _ _ _ _ (by omega),
    store64_frame _ _ _ _ (by omega)]
  have h := pde_loop_frame 256 0 BOOT_PDE
    (store64 (store64 (memset (memset (memset m BOOT_PML4 0 4096) BOOT_PDPTE 0 4096)
      BOOT_PDE 0 4096) BOOT_PML4 (BOOT_PDPTE ||| (X86_PDPT_P ||| X86_PDPT_RW)))
      BOOT_PDPTE (BOOT_PDE ||| (X86_PDPT_P ||| X86_PDPT_RW))) b (by omega)
    (by simp only [BOOT_PDE]; omega)
  simp only [Nat.zero_mul] at h
  rw [h, store64_frame _ _ _ _ (by simp only [BOOT_PDPTE]; omega),
    store64_frame _ _ _ _ (by simp only [BOOT_PML4]; omega),
    memset_frame _ _ _ _ _ (by simp only [BOOT_PDE]; omega),
    memset_frame _ _ _ _ _ (by simp only [BOOT_PDPTE]; omega),
    memset_frame _ _ _ _ _ (by simp only [BOOT_PML4]; omega)]

/-- Claim C19.  `setup_guest_mem` writes only inside its reserved structures.
With a null buffer it returns `-EFAULT` and there is no memory written.
Otherwise it returns 0 and every byte `b` outside `[0x1000, 0x1018)` and
outside `[0x10000, 0x13000)` is unchanged.  Its loop is exactly the 256 stores
to the PDE entries 0..255, in order, so every PDE index written is below 512. -/
theorem C19_writes_stay_inside (EFAULT : Int) (m : Mem) (b : Nat)
    (hgdt : b < 0x1000 ∨ 0x1018 ≤ b) (htab : b < 0x10000 ∨ 0x13000 ≤ b) :
    setup_guest_mem EFAULT none = (-EFAULT, none) ∧
    (∃ m', setup_guest_mem EFAULT (some m) = (0, some m') ∧ m' b = m b) ∧
    (∀ m0 : Mem, pde_loop 0 BOOT_PDE m0 =
      (List.range 256).foldl
        (fun acc j => store64 acc (BOOT_PDE + 8 * j)
          (j * GUEST_PAGE_SIZE ||| (X86_PDPT_P ||| X86_PDPT_RW ||| X86_PDPT_PS))) m0) ∧
    (List.range 256).length = 256 ∧
    (∀ j ∈ List.range 256, j < 512 ∧ BOOT_PDE + 8 * j + 8 ≤ 0x13000) := by
  refine ⟨rfl, ⟨setup_guest_mem_body m, rfl, body_frame m b hgdt htab⟩, ?_,
    List.length_range 256, ?_⟩
  · intro m0
    have h := pde_loop_eq_foldl 256 0 BOOT_PDE m0 rfl
    simp only [Nat.zero_mul, Nat.zero_add] at h
    rw [h, pde_flags_eq]
  · intro j hj
    have hlt : j < 256 := List.mem_range.mp hj
    simp only [BOOT_PDE]
    omega

/-- Witness for C19: the byte at offset `0x2000` (the boot-info page) of a
buffer filled with `0x5A`. -/
theorem C19_writes_stay_inside_witness :
    ((0x2000 < 0x1000 ∨ 0x1018 ≤ 0x2000) ∧ (0x2000 < 0x10000 ∨ 0x13000 ≤ 0x2000)) ∧
    setup_guest_mem 14 none = (-14, none) ∧
    (∃ m', setup_guest_mem 14 (some (fun _ => 0x5A)) = (0, some m') ∧
      m' 0x2000 = (fun _ => 0x5A) 0x2000) ∧
    (∀ m0 : Mem, pde_loop 0 BOOT_PDE m0 =
      (List.range 256).foldl
        (fun acc j => store64 acc (BOOT_PDE + 8 * j)
          (j * GUEST_PAGE_SIZE ||| (X86_PDPT_P ||| X86_PDPT_RW ||| X86_PDPT_PS))) m0) ∧
    (List.range 256).length = 256 ∧
    (∀ j ∈ List.range 256, j < 512 ∧ BOOT_PDE + 8 * j + 8 ≤ 0x13000) :=
  ⟨by decide, C19_writes_stay_inside 14 (fun _ => 0x5A) 0x2000 (by decide) (by decide)⟩

/-! ## Descriptor encoding and decoding -/

/-- Bits of a mask of contiguous ones, from bit `lo` up to but not including `hi`. -/
theorem testBit_mask (lo hi i : Nat) (h : lo ≤ hi) :
    (2 ^ hi - 2 ^ lo).testBit i = (decide (lo ≤ i) && decide (i < hi)) := by
  have e : 2 ^ hi - 2 ^ lo = (2 ^ (hi - lo) - 1) <<< lo := by
    rw [Nat.shiftLeft_eq, Nat.sub_mul, Nat.one_mul, ← Nat.pow_add, Nat.sub_add_cancel h]
  rw [e, Nat.testBit_shiftLeft, Nat.testBit_two_pow_sub_one]
  by_cases h1 : lo ≤ i
  · by_cases h2 : i < hi
    · simp [h1, h2]; omega
    · simp [h1, h2]; omega
  · simp [h1]

theorem mask_24_32 (i : Nat) :
    Nat.testBit 0xff000000 i = (decide (24 ≤ i) && decide (i < 32)) :=
  testBit_mask 24 32 i (by decide)

theorem mask_16_20 (i : Nat) :
    Nat.testBit 0x000f0000 i = (decide (16 ≤ i) && decide (i < 20)) :=
  testBit_mask 16 20 i (by decide)

theorem mask_0_24 (i : Nat) :
    Nat.testBit 0x00ffffff i = (decide (0 ≤ i) && decide (i < 24)) :=
  testBit_mask 0 24 i (by decide)

theorem mask_0_16 (i : Nat) :
    Nat.testBit 0x0000ffff i = (decide (0 ≤ i) && decide (i < 16)) :=
  testBit_mask 0 16 i (by decide)

theorem mask_56_64 (i : Nat) :
    Nat.testBit 0xFF00000000000000 i = (decide (56 ≤ i) && decide (i < 64)) :=
  testBit_mask 56 64 i (by decide)

theorem mask_32_40 (i : Nat) :
    Nat.testBit 0x000000FF00000000 i = (decide (32 ≤ i) && decide (i < 40)) :=
  testBit_mask 32 40 i (by decide)

theorem mask_16_32 (i : Nat) :
    Nat.testBit 0x00000000FFFF0000 i = (decide (16 ≤ i) && decide (i < 32)) :=
  testBit_mask 16 32 i (by decide)

theorem mask_48_52 (i : Nat) :
    Nat.testBit 0x000F000000000000 i = (decide (48 ≤ i) && decide (i < 52)) :=
  testBit_mask 48 52 i (by decide)

theorem mask_55_56 (i : Nat) :
    Nat.testBit 0x0080000000000000 i = (decide (55 ≤ i) && decide (i < 56)) :=
  testBit_mask 55 56 i (by decide)

theorem mask_54_55 (i : Nat) :
    Nat.testBit 0x0040000000000000 i = (decide (54 ≤ i) && decide (i < 55)) :=
  testBit_mask 54 55 i (by decide)

theorem mask_53_54 (i : Nat) :
    Nat.testBit 0x0020000000000000 i = (decide (53 ≤ i) && decide (i < 54)) :=
  testBit_mask 53 54 i (by decide)

theorem mask_52_53 (i : Nat) :
    Nat.testBit 0x0010000000000000 i = (decide (52 ≤ i) && decide (i < 53)) :=
  testBit_mask 52 53 i (by decide)

theorem mask_47_48 (i : Nat) :
    Nat.testBit 0x0000800000000000 i = (decide (47 ≤ i) && decide (i < 48)) :=
  testBit_mask 47 48 i (by decide)

theorem mask_45_47 (i : Nat) :
    Nat.testBit 0x0000600000000000 i = (decide (45 ≤ i) && decide (i < 47)) :=
  testBit_mask 45 47 i (by decide)

theorem mask_44_45 (i : Nat) :
    Nat.testBit 0x0000100000000000 i = (decide (44 ≤ i) && decide (i < 45)) :=
  testBit_mask 44 45 i (by decide)

theorem mask_40_44 (i : Nat) :
    Nat.testBit 0x00000F0000000000 i = (decide (40 ≤ i) && decide (i < 44)) :=
  testBit_mask 40 44 i (by decide)

/-- The flags mask `0xf0ff` of `GDT_ENTRY`: bits 0..7 and 12..15. -/
theorem mask_flags (i : Nat) :
    Nat.testBit 0x0000f0ff i = (decide (i < 8) || (decide (12 ≤ i) && decide (i < 16))) := by
  have e : (0x0000f0ff : Nat) = (2 ^ 8 - 2 ^ 0) ||| (2 ^ 16 - 2 ^ 12) := by decide
  rw [e, Nat.testBit_or, testBit_mask 0 8 i (by decide), testBit_mask 12 16 i (by decide)]
  simp

theorem GDT_GET_BASE_ENTRY (f b l : Nat) (hb : b < 2 ^ 32) :
    GDT_GET_BASE (GDT_ENTRY f b l) = b := by
  apply Nat.eq_of_testBit_eq
  intro i
  by_cases hi : i < 32
  · simp only [GDT_GET_BASE, GDT_ENTRY, Nat.testBit_or, Nat.testBit_shiftRight,
      Nat.testBit_mod_two_pow, Nat.testBit_shiftLeft, Nat.testBit_and, mask_24_32, mask_16_20, mask_0_24, mask_0_16, mask_56_64, mask_32_40, mask_16_32, mask_48_52, mask_55_56, mask_54_55, mask_53_54, mask_52_53, mask_47_48, mask_45_47, mask_44_45, mask_40_44, mask_flags]
    interval_cases i <;> simp
  · have h1 : ¬ (32 + i < 64) := by omega
    have h2 : ¬ (16 + i < 40) := by omega
    have h3 : ¬ (16 + i < 32) := by omega
    have hr : b.testBit i = false :=
      Nat.testBit_lt_two_pow (Nat.lt_of_lt_of_le hb (Nat.pow_le_pow_right (by decide) (by omega)))
    simp only [GDT_GET_BASE, Nat.testBit_or, Nat.testBit_shiftRight, Nat.testBit_and, mask_24_32, mask_16_20, mask_0_24, mask_0_16, mask_56_64, mask_32_40, mask_16_32, mask_48_52, mask_55_56, mask_54_55, mask_53_54, mask_52_53, mask_47_48, mask_45_47, mask_44_45, mask_40_44, mask_flags]
    simp [h1, h2, h3, hr]

theorem GDT_GET_LIMIT_ENTRY (f b l : Nat) (hl : l < 2 ^ 20) :
    GDT_GET_LIMIT (GDT_ENTRY f b l) = l := by
  apply Nat.eq_of_testBit_eq
  intro i
  by_cases hi : i < 20
  · simp only [GDT_GET_LIMIT, GDT_ENTRY, Nat.testBit_or, Nat.testBit_shiftRight,
      Nat.testBit_mod_two_pow, Nat.testBit_shiftLeft, Nat.testBit_and, Nat.testBit_bool_to_nat,
      mask_24_32, mask_16_20, mask_0_24, mask_0_16, mask_56_64, mask_32_40, mask_16_32, mask_48_52, mask_55_56, mask_54_55, mask_53_54, mask_52_53, mask_47_48, mask_45_47, mask_44_45, mask_40_44, mask_flags]
    interval_cases i <;> simp
  · have h1 : ¬ (32 + i < 52) := by omega
    have h2 : ¬ (i < 16) := by omega
    have hr : l.testBit i = false :=
      Nat.testBit_lt_two_pow (Nat.lt_of_lt_of_le hl (Nat.pow_le_pow_right (by decide) (by omega)))
    simp only [GDT_GET_LIMIT, Nat.testBit_or, Nat.testBit_shiftRight, Nat.testBit_mod_two_pow,
      Nat.testBit_and, Nat.testBit_bool_to_nat, mask_24_32, mask_16_20, mask_0_24, mask_0_16, mask_56_64, mask_32_40, mask_16_32, mask_48_52, mask_55_56, mask_54_55, mask_53_54, mask_52_53, mask_47_48, mask_45_47, mask_44_45, mask_40_44, mask_flags]
    simp [h1, h2, hr]

theorem GDT_GET_TYPE_ENTRY (f b l : Nat) :
    GDT_GET_TYPE (GDT_ENTRY f b l) = f % 2 ^ 4 := by
  apply Nat.eq_of_testBit_eq
  intro i
  by_cases hi : i < 4
  · simp only [GDT_GET_TYPE, GDT_ENTRY, Nat.testBit_or, Nat.testBit_shiftRight,
      Nat.testBit_mod_two_pow, Nat.testBit_shiftLeft, Nat.testBit_and, Nat.testBit_bool_to_nat,
      mask_24_32, mask_16_20, mask_0_24, mask_0_16, mask_56_64, mask_32_40, mask_16_32, mask_48_52, mask_55_56, mask_54_55, mask_53_54, mask_52_53, mask_47_48, mask_45_47, mask_44_45, mask_40_44, mask_flags]
    interval_cases i <;> simp
  · have h1 : ¬ (40 + i < 44) := by omega
    have h2 : ¬ (i < 4) := by omega

    simp only [GDT_GET_TYPE, Nat.testBit_or, Nat.testBit_shiftRight, Nat.testBit_mod_two_pow,
      Nat.testBit_and, Nat.testBit_bool_to_nat, mask_24_32, mask_16_20, mask_0_24, mask_0_16, mask_56_64, mask_32_40, mask_16_32, mask_48_52, mask_55_56, mask_54_55, mask_53_54, mask_52_53, mask_47_48, mask_45_47, mask_44_45, mask_40_44, mask_flags]
    simp [h1, h2]

theorem GDT_GET_DPL_ENTRY (f b l : Nat) :
    GDT_GET_DPL (GDT_ENTRY f b l) = (f >>> 5) % 2 ^ 2 := by
  apply Nat.eq_of_testBit_eq
  intro i
  by_cases hi : i < 2
  · simp only [GDT_GET_DPL, GDT_ENTRY, Nat.testBit_or, Nat.testBit_shiftRight,
      Nat.testBit_mod_two_pow, Nat.testBit_shiftLeft, Nat.testBit_and, Nat.testBit_bool_to_nat,
      mask_24_32, mask_16_20, mask_0_24, mask_0_16, mask_56_64, mask_32_40, mask_16_32, mask_48_52, mask_55_56, mask_54_55, mask_53_54, mask_52_53, mask_47_48, mask_45_47, mask_44_45, mask_40_44, mask_flags]
    interval_cases i <;> simp
  · have h1 : ¬ (45 + i < 47) := by omega
    have h2 : ¬ (i < 2) := by omega

    simp only [GDT_GET_DPL, Nat.testBit_or, Nat.testBit_shiftRight, Nat.testBit_mod_two_pow,
      Nat.testBit_and, Nat.testBit_bool_to_nat, mask_24_32, mask_16_20, mask_0_24, mask_0_16, mask_56_64, mask_32_40, mask_16_32, mask_48_52, mask_55_56, mask_54_55, mask_53_54, mask_52_53, mask_47_48, mask_45_47, mask_44_45, mask_40_44, mask_flags]
    simp [h1, h2]

theorem GDT_GET_S_ENTRY (f b l : Nat) :
    GDT_GET_S (GDT_ENTRY f b l) = (f.testBit 4).toNat := by
  apply Nat.eq_of_testBit_eq
  intro i
  by_cases hi : i < 1
  · simp only [GDT_GET_S, GDT_ENTRY, Nat.testBit_or, Nat.testBit_shiftRight,
      Nat.testBit_mod_two_pow, Nat.testBit_shiftLeft, Nat.testBit_and, Nat.testBit_bool_to_nat,
      mask_24_32, mask_16_20, mask_0_24, mask_0_16, mask_56_64, mask_32_40, mask_16_32, mask_48_52, mask_55_56, mask_54_55, mask_53_54, mask_52_53, mask_47_48, mask_45_47, mask_44_45, mask_40_44, mask_flags]
    interval_cases i
    simp
  · have h1 : ¬ (44 + i < 45) := by omega
    have h2 : ¬ (i = 0) := by omega

    simp only [GDT_GET_S, Nat.testBit_or, Nat.testBit_shiftRight, Nat.testBit_mod_two_pow,
      Nat.testBit_and, Nat.testBit_bool_to_nat, mask_24_32, mask_16_20, mask_0_24, mask_0_16, mask_56_64, mask_32_40, mask_16_32, mask_48_52, mask_55_56, mask_54_55, mask_53_54, mask_52_53, mask_47_48, mask_45_47, mask_44_45, mask_40_44, mask_flags]
    simp [h1, h2]

theorem GDT_GET_P_ENTRY (f b l : Nat) :
    GDT_GET_P (GDT_ENTRY f b l) = (f.testBit 7).toNat := by
  apply Nat.eq_of_testBit_eq
  intro i
  by_cases hi : i < 1
  · simp only [GDT_GET_P, GDT_ENTRY, Nat.testBit_or, Nat.testBit_shiftRight,
      Nat.testBit_mod_two_pow, Nat.testBit_shiftLeft, Nat.testBit_and, Nat.testBit_bool_to_nat,
      mask_24_32, mask_16_20, mask_0_24, mask_0_16, mask_56_64, mask_32_40, mask_16_32, mask_48_52, mask_55_56, mask_54_55, mask_53_54, mask_52_53, mask_47_48, mask_45_47, mask_44_45, mask_40_44, mask_flags]
    interval_cases i
    simp
  · have h1 : ¬ (47 + i < 48) := by omega
    have h2 : ¬ (i = 0) := by omega

    simp only [GDT_GET_P, Nat.testBit_or, Nat.testBit_shiftRight, Nat.testBit_mod_two_pow,
      Nat.testBit_and, Nat.testBit_bool_to_nat, mask_24_32, mask_16_20, mask_0_24, mask_0_16, mask_56_64, mask_32_40, mask_16_32, mask_48_52, mask_55_56, mask_54_55, mask_53_54, mask_52_53, mask_47_48, mask_45_47, mask_44_45, mask_40_44, mask_flags]
    simp [h1, h2]

theorem GDT_GET_AVL_ENTRY (f b l : Nat) :
    GDT_GET_AVL (GDT_ENTRY f b l) = (f.testBit 12).toNat := by
  apply Nat.eq_of_testBit_eq
  intro i
  by_cases hi : i < 1
  · simp only [GDT_GET_AVL, GDT_ENTRY, Nat.testBit_or, Nat.testBit_shiftRight,
      Nat.testBit_mod_two_pow, Nat.testBit_shiftLeft, Nat.testBit_and, Nat.testBit_bool_to_nat,
      mask_24_32, mask_16_20, mask_0_24, mask_0_16, mask_56_64, mask_32_40, mask_16_32, mask_48_52, mask_55_56, mask_54_55, mask_53_54, mask_52_53, mask_47_48, mask_45_47, mask_44_45, mask_40_44, mask_flags]
    interval_cases i
    simp
  · have h1 : ¬ (52 + i < 53) := by omega
    have h2 : ¬ (i = 0) := by omega

    simp only [GDT_GET_AVL, Nat.testBit_or, Nat.testBit_shiftRight, Nat.testBit_mod_two_pow,
      Nat.testBit_and, Nat.testBit_bool_to_nat, mask_24_32, mask_16_20, mask_0_24, mask_0_16, mask_56_64, mask_32_40, mask_16_32, mask_48_52, mask_55_56, mask_54_55, mask_53_54, mask_52_53, mask_47_48, mask_45_47, mask_44_45, mask_40_44, mask_flags]
    simp [h1, h2]

theorem GDT_GET_L_ENTRY (f b l : Nat) :
    GDT_GET_L (GDT_ENTRY f b l) = (f.testBit 13).toNat := by
  apply Nat.eq_of_testBit_eq
  intro i
  by_cases hi : i < 1
  · simp only [GDT_GET_L, GDT_ENTRY, Nat.testBit_or, Nat.testBit_shiftRight,
      Nat.testBit_mod_two_pow, Nat.testBit_shiftLeft, Nat.testBit_and, Nat.testBit_bool_to_nat,
      mask_24_32, mask_16_20, mask_0_24, mask_0_16, mask_56_64, mask_32_40, mask_16_32, mask_48_52, mask_55_56, mask_54_55, mask_53_54, mask_52_53, mask_47_48, mask_45_47, mask_44_45, mask_40_44, mask_flags]
    interval_cases i
    simp
  · have h1 : ¬ (53 + i < 54) := by omega
    have h2 : ¬ (i = 0) := by omega

    simp only [GDT_GET_L, Nat.testBit_or, Nat.testBit_shiftRight, Nat.testBit_mod_two_pow,
      Nat.testBit_and, Nat.testBit_bool_to_nat, mask_24_32, mask_16_20, mask_0_24, mask_0_16, mask_56_64, mask_32_40, mask_16_32, mask_48_52, mask_55_56, mask_54_55, mask_53_54, mask_52_53, mask_47_48, mask_45_47, mask_44_45, mask_40_44, mask_flags]
    simp [h1, h2]

theorem GDT_GET_DB_ENTRY (f b l : Nat) :
    GDT_GET_DB (GDT_ENTRY f b l) = (f.testBit 14).toNat := by
  apply Nat.eq_of_testBit_eq
  intro i
  by_cases hi : i < 1
  · simp only [GDT_GET_DB, GDT_ENTRY, Nat.testBit_or, Nat.testBit_shiftRight,
      Nat.testBit_mod_two_pow, Nat.testBit_shiftLeft, Nat.testBit_and, Nat.testBit_bool_to_nat,
      mask_24_32, mask_16_20, mask_0_24, mask_0_16, mask_56_64, mask_32_40, mask_16_32, mask_48_52, mask_55_56, mask_54_55, mask_53_54, mask_52_53, mask_47_48, mask_45_47, mask_44_45, mask_40_44, mask_flags]
    interval_cases i
    simp
  · have h1 : ¬ (54 + i < 55) := by omega
    have h2 : ¬ (i = 0) := by omega

    simp only [GDT_GET_DB, Nat.testBit_or, Nat.testBit_shiftRight, Nat.testBit_mod_two_pow,
      Nat.testBit_and, Nat.testBit_bool_to_nat, mask_24_32, mask_16_20, mask_0_24, mask_0_16, mask_56_64, mask_32_40, mask_16_32, mask_48_52, mask_55_56, mask_54_55, mask_53_54, mask_52_53, mask_47_48, mask_45_47, mask_44_45, mask_40_44, mask_flags]
    simp [h1, h2]

theorem GDT_GET_G_ENTRY (f b l : Nat) :
    GDT_GET_G (GDT_ENTRY f b l) = (f.testBit 15).toNat := by
  apply Nat.eq_of_testBit_eq
  intro i
  by_cases hi : i < 1
  · simp only [GDT_GET_G, GDT_ENTRY, Nat.testBit_or, Nat.testBit_shiftRight,
      Nat.testBit_mod_two_pow, Nat.testBit_shiftLeft, Nat.testBit_and, Nat.testBit_bool_to_nat,
      mask_24_32, mask_16_20, mask_0_24, mask_0_16, mask_56_64, mask_32_40, mask_16_32, mask_48_52, mask_55_56, mask_54_55, mask_53_54, mask_52_53, mask_47_48, mask_45_47, mask_44_45, mask_40_44, mask_flags]
    interval_cases i
    simp
  · have h1 : ¬ (55 + i < 56) := by omega
    have h2 : ¬ (i = 0) := by omega

    simp only [GDT_GET_G, Nat.testBit_or, Nat.testBit_shiftRight, Nat.testBit_mod_two_pow,
      Nat.testBit_and, Nat.testBit_bool_to_nat, mask_24_32, mask_16_20, mask_0_24, mask_0_16, mask_56_64, mask_32_40, mask_16_32, mask_48_52, mask_55_56, mask_54_55, mask_53_54, mask_52_53, mask_47_48, mask_45_47, mask_44_45, mask_40_44, mask_flags]
    simp [h1, h2]

/-- Claim C20.  The descriptor decode macros invert the encode macro: for every
base below `2 ^ 32`, every limit below `2 ^ 20` and every flags value `f` (so
every 16-bit one), with `x = GDT_ENTRY(f, base, limit)`: `GDT_GET_BASE(x) = base`,
`GDT_GET_LIMIT(x) = limit`, `GDT_GET_TYPE(x)` is bits 0..3 of `f`,
`GDT_GET_S(x)` bit 4, `GDT_GET_DPL(x)` bits 5..6, `GDT_GET_P(x)` bit 7,
`GDT_GET_AVL(x)` bit 12, `GDT_GET_L(x)` bit 13, `GDT_GET_DB(x)` bit 14 and
`GDT_GET_G(x)` bit 15. -/
theorem C20_decode_inverts_encode (f base limit : Nat)
    (hbase : base < 2 ^ 32) (hlimit : limit < 2 ^ 20) :
    GDT_GET_BASE (GDT_ENTRY f base limit) = base ∧
    GDT_GET_LIMIT (GDT_ENTRY f base limit) = limit ∧
    GDT_GET_TYPE (GDT_ENTRY f base limit) = f % 2 ^ 4 ∧
    GDT_GET_S (GDT_ENTRY f base limit) = (f.testBit 4).toNat ∧
    GDT_GET_DPL (GDT_ENTRY f base limit) = f / 2 ^ 5 % 2 ^ 2 ∧
    GDT_GET_P (GDT_ENTRY f base limit) = (f.testBit 7).toNat ∧
    GDT_GET_AVL (GDT_ENTRY f base limit) = (f.testBit 12).toNat ∧
    GDT_GET_L (GDT_ENTRY f base limit) = (f.testBit 13).toNat ∧
    GDT_GET_DB (GDT_ENTRY f base limit) = (f.testBit 14).toNat ∧
    GDT_GET_G (GDT_ENTRY f base limit) = (f.testBit 15).toNat := by
  refine ⟨GDT_GET_BASE_ENTRY f base limit hbase, GDT_GET_LIMIT_ENTRY f base limit hlimit,
    GDT_GET_TYPE_ENTRY f base limit, GDT_GET_S_ENTRY f base limit, ?_,
    GDT_GET_P_ENTRY f base limit, GDT_GET_AVL_ENTRY f base limit,
    GDT_GET_L_ENTRY f base limit, GDT_GET_DB_ENTRY f base limit,
    GDT_GET_G_ENTRY f base limit⟩
  rw [GDT_GET_DPL_ENTRY f base limit, Nat.shiftRight_eq_div_pow]

/-- Witness for C20: flags `0xC093`, base `0x12345678`, limit `0xABCDE`. -/
theorem C20_decode_inverts_encode_witness :
    (0x12345678 < 2 ^ 32 ∧ 0xABCDE < 2 ^ 20) ∧
    GDT_GET_BASE (GDT_ENTRY 0xC093 0x12345678 0xABCDE) = 0x12345678 ∧
    GDT_GET_LIMIT (GDT_ENTRY 0xC093 0x12345678 0xABCDE) = 0xABCDE ∧
    GDT_GET_TYPE (GDT_ENTRY 0xC093 0x12345678 0xABCDE) = 0xC093 % 2 ^ 4 ∧
    GDT_GET_S (GDT_ENTRY 0xC093 0x12345678 0xABCDE) = (Nat.testBit 0xC093 4).toNat ∧
    GDT_GET_DPL (GDT_ENTRY 0xC093 0x12345678 0xABCDE) = 0xC093 / 2 ^ 5 % 2 ^ 2 ∧
    GDT_GET_P (GDT_ENTRY 0xC093 0x12345678 0xABCDE) = (Nat.testBit 0xC093 7).toNat ∧
    GDT_GET_AVL (GDT_ENTRY 0xC093 0x12345678 0xABCDE) = (Nat.testBit 0xC093 12).toNat ∧
    GDT_GET_L (GDT_ENTRY 0xC093 0x12345678 0xABCDE) = (Nat.testBit 0xC093 13).toNat ∧
    GDT_GET_DB (GDT_ENTRY 0xC093 0x12345678 0xABCDE) = (Nat.testBit 0xC093 14).toNat ∧
    GDT_GET_G (GDT_ENTRY 0xC093 0x12345678 0xABCDE) = (Nat.testBit 0xC093 15).toNat :=
  ⟨by decide, C20_decode_inverts_encode 0xC093 0x12345678 0xABCDE (by decide) (by decide)⟩

end Ehyve
